import Mathlib

/-!
# Verification of the duka-app inventory & sales ledger core

Shallow embedding of the stock / sales / expense ledger operations of the
`duka-app` backend (`backend/app/api/v1/{inventory_transactions,sales,expenses}.py`).

Modelling conventions:
* the Supabase tables touched by the core are rows in a `DB` record; every
  table is a `List` of row structures and queries are `List.find?` / `List.filter`
  over the same column conditions the source issues (note that several source
  queries deliberately omit the `company_id` filter; the embedding reproduces
  that);
* ids are `Nat` (the source uses DB-generated uuids); freshly inserted rows
  draw ids from a monotone counter `next_id`;
* money is exact: `Rat` (the JSON layer's decimals); quantities are `Int`;
* a FastAPI `HTTPException` is an `ApiErr` value; endpoints return
  `(Except ApiErr α) × DB` so that writes performed before a later failure
  stay visible, exactly as in the source where each step is a separate
  Supabase call with no surrounding transaction;
* pass-through metadata that affects no control flow (notes, created_by,
  timestamps, sale_date) is omitted from the row structures;
* calendar dates are proleptic-Gregorian ordinals (`Int`, the value of
  Python's `date.toordinal`); `PyDate` carries the (year, month, day) form
  needed by the monthly recurrence branch.
-/

/-- Results of fallible endpoints are compared by evaluation in the concrete
instantiations below. -/
instance {e a : Type} [DecidableEq e] [DecidableEq a] : DecidableEq (Except e a) :=
  fun x y =>
    match x, y with
    | .error u, .error v =>
      if h : u = v then .isTrue (by rw [h])
      else .isFalse (fun hc => by cases hc; exact h rfl)
    | .error _, .ok _ => .isFalse (fun hc => Except.noConfusion hc)
    | .ok _, .error _ => .isFalse (fun hc => Except.noConfusion hc)
    | .ok u, .ok v =>
      if h : u = v then .isTrue (by rw [h])
      else .isFalse (fun hc => by cases hc; exact h rfl)

/-- Error kinds of the core, one per distinct `HTTPException` family raised by
the source (§7 of the spec). `internalError` stands for the blanket
`except Exception` 400 handlers (paths where the Python code would crash on
missing joined data). -/
inductive ApiErr where
  | notFound
  | invalidOperation
  | invalidQuantity
  | insufficientStock
  | invalidTransition
  | creditLimitExceeded
  | exceedsAmountDue
  | validationError
  | alreadyReversed
  | internalError
deriving DecidableEq, Repr

/-- A row of `customers`, with the `customer_tiers(discount_percentage)` join
the sales endpoints always request inlined as `tier_discount`. -/
structure Customer where
  id : Nat
  company_id : Nat
  customer_type : String
  credit_limit : Rat
  current_balance : Rat
  tier_discount : Option Rat
deriving DecidableEq, Repr

/-- A row of `storage_locations` (only the columns the core reads). -/
structure StorageLocation where
  id : Nat
  company_id : Nat
deriving DecidableEq, Repr

/-- A row of `product_variants` (only the columns the core reads). -/
structure ProductVariant where
  id : Nat
  company_id : Nat
deriving DecidableEq, Repr

/-- A row of `suppliers` (only the columns the core reads). -/
structure Supplier where
  id : Nat
  company_id : Nat
deriving DecidableEq, Repr

/-- A row of `inventory_items`. -/
structure InventoryItem where
  id : Nat
  company_id : Nat
  product_variant_id : Nat
  storage_location_id : Nat
  quantity : Int
deriving DecidableEq, Repr

/-- A row of `inventory_transactions`. -/
structure InventoryTransaction where
  id : Nat
  company_id : Nat
  product_variant_id : Nat
  transaction_type : String
  quantity : Int
  from_location_id : Option Nat
  to_location_id : Option Nat
  reference_type : Option String
  reference_id : Option Nat
  supplier_id : Option Nat
  unit_cost : Option Rat
  total_cost : Option Rat
  payment_status : String
  amount_paid : Rat
  amount_due : Option Rat
deriving DecidableEq, Repr

/-- A row of `sales`. -/
structure Sale where
  id : Nat
  company_id : Nat
  customer_id : Nat
  sale_number : Nat
  sale_type : String
  original_sale_id : Option Nat
  storage_location_id : Nat
  subtotal : Rat
  discount_percentage : Rat
  discount_amount : Rat
  total_amount : Rat
  payment_status : String
  amount_paid : Rat
  amount_due : Rat
deriving DecidableEq, Repr

/-- A row of `sale_items`. -/
structure SaleItem where
  id : Nat
  sale_id : Nat
  product_variant_id : Nat
  quantity : Int
  unit_price : Rat
  discount_percentage : Rat
  discount_amount : Rat
  line_total : Rat
deriving DecidableEq, Repr

/-- A row of `sale_payments`. -/
structure SalePayment where
  id : Nat
  sale_id : Nat
  amount : Rat
  payment_method : String
  reference_number : Option String
deriving DecidableEq, Repr

/-- A Python `datetime.date` in calendar form (for the monthly recurrence
arithmetic, which needs year/month fields). -/
structure PyDate where
  year : Nat
  month : Nat
  day : Nat
deriving DecidableEq, Repr

/-- A row of `expense_categories` (only the columns the core reads). -/
structure ExpenseCategory where
  id : Nat
  company_id : Nat
  expense_type : String
  is_active : Bool
deriving DecidableEq, Repr

/-- A row of `expenses`; `expense_date` is stored as an ordinal. -/
structure Expense where
  id : Nat
  company_id : Nat
  expense_category_id : Nat
  expense_type : String
  amount : Rat
  supplier_id : Option Nat
  sale_id : Option Nat
  payment_status : String
  amount_paid : Rat
  amount_due : Rat
  is_recurring : Bool
  recurrence_frequency : Option String
  recurrence_day_of_week : Option Int
  recurrence_day_of_month : Option Nat
  expense_date : Int
  parent_expense_id : Option Nat
deriving DecidableEq, Repr

/-- A row of `expense_payments`. -/
structure ExpensePayment where
  id : Nat
  company_id : Nat
  expense_id : Nat
  amount : Rat
  payment_method : String
  reference_number : Option String
deriving DecidableEq, Repr

/-- The database state threaded through every endpoint. -/
structure DB where
  customers : List Customer
  storage_locations : List StorageLocation
  product_variants : List ProductVariant
  suppliers : List Supplier
  inventory_items : List InventoryItem
  inventory_transactions : List InventoryTransaction
  sales : List Sale
  sale_items : List SaleItem
  sale_payments : List SalePayment
  expense_categories : List ExpenseCategory
  expenses : List Expense
  expense_payments : List ExpensePayment
  next_id : Nat
deriving DecidableEq, Repr

/-- Draw a fresh row id (the source lets Postgres generate uuids). -/
def DB.freshId (db : DB) : Nat × DB :=
  (db.next_id, { db with next_id := db.next_id + 1 })

/-- The quantity column of the `inventory_items` row for (variant, location),
if one exists. The source queries this pair without a company filter
(`inventory_transactions.py` line 25, `sales.py` lines 29 and 53). -/
def qtyAt (db : DB) (variant_id location_id : Nat) : Option Int :=
  (db.inventory_items.find? fun r =>
    r.product_variant_id == variant_id && r.storage_location_id == location_id).map
    (·.quantity)

/-- On-hand quantity treating a missing row as 0. -/
def qtyAt0 (db : DB) (variant_id location_id : Nat) : Int :=
  (qtyAt db variant_id location_id).getD 0

/-- `update_inventory_quantity` (`inventory_transactions.py` lines 16-59): the
Stock Ledger `ApplyDelta` primitive. Its failures happen before any write,
so the caller keeps its pre-call state on error. -/
def update_inventory_quantity (db : DB) (company_id variant_id location_id : Nat)
    (quantity_change : Int) : Except ApiErr DB :=
  match db.inventory_items.find? (fun r =>
      r.product_variant_id == variant_id && r.storage_location_id == location_id) with
  | some item =>
    let new_qty := item.quantity + quantity_change
    if new_qty < 0 then
      -- "Insufficient stock"
      .error .insufficientStock
    else
      .ok { db with inventory_items := db.inventory_items.map fun r =>
              if r.id == item.id then { r with quantity := new_qty } else r }
  | none =>
    if quantity_change < 0 then
      -- "Cannot create negative inventory"
      .error .invalidTransition
    else
      let (iid, db) := db.freshId
      .ok { db with inventory_items := db.inventory_items ++
              [{ id := iid, company_id, product_variant_id := variant_id,
                 storage_location_id := location_id, quantity := quantity_change }] }

/-! ## Sales engine (`sales.py`) -/

/-- One line of a `SaleCreate` body (`schemas/sales.py` `SaleItemCreate`).
`quantity` is an unconstrained `int` in the schema ("Positive for invoices,
negative for credit notes"); the request-level `discount_percentage` field is
never read by `create_sale`, which applies the customer's tier discount. -/
structure SaleItemCreate where
  product_variant_id : Nat
  quantity : Int
  unit_price : Rat
deriving DecidableEq, Repr

/-- A `SaleCreate` body (non-logic metadata omitted). -/
structure SaleCreate where
  customer_id : Nat
  storage_location_id : Nat
  sale_type : String := "invoice"
  original_sale_id : Option Nat := none
  items : List SaleItemCreate
deriving DecidableEq, Repr

/-- One line of a `CreditNoteCreate` body; the schema constrains
`return_quantity` with `gt=0`. -/
structure CreditNoteItem where
  sale_item_id : Nat
  return_quantity : Int
deriving DecidableEq, Repr

/-- A `CreditNoteCreate` body. -/
structure CreditNoteCreate where
  original_sale_id : Nat
  items : List CreditNoteItem
deriving DecidableEq, Repr

/-- A `SalePaymentCreate` body; the schema constrains `amount` with `gt=0`. -/
structure SalePaymentCreate where
  sale_id : Nat
  amount : Rat
  payment_method : String
  reference_number : Option String := none
deriving DecidableEq, Repr

/-- `check_stock_availability` (`sales.py` lines 22-39). -/
def check_stock_availability (db : DB) (variant_id location_id : Nat)
    (required_quantity : Int) : Bool :=
  match db.inventory_items.find? (fun r =>
      r.product_variant_id == variant_id && r.storage_location_id == location_id) with
  | none => false
  | some item => required_quantity ≤ item.quantity

/-- `update_inventory_from_sale` (`sales.py` lines 41-92). This helper never
fails: unlike `update_inventory_quantity` it has no negative-stock guard, and
when no inventory row exists and the call is not for a credit note it skips
the stock write entirely. It always appends an `inventory_transactions` row. -/
def update_inventory_from_sale (db : DB) (company_id variant_id location_id : Nat)
    (quantity : Int) (sale_id : Nat) (is_credit_note : Bool := false) : DB :=
  let db : DB :=
    match db.inventory_items.find? (fun r =>
        r.product_variant_id == variant_id && r.storage_location_id == location_id) with
    | some item =>
      let new_qty := if !is_credit_note then item.quantity - quantity
                     else item.quantity + (quantity.natAbs : Int)
      { db with inventory_items := db.inventory_items.map fun r =>
          if r.id == item.id then { r with quantity := new_qty } else r }
    | none =>
      if is_credit_note then
        let (iid, db) := db.freshId
        { db with inventory_items := db.inventory_items ++
            [{ id := iid, company_id, product_variant_id := variant_id,
               storage_location_id := location_id, quantity := (quantity.natAbs : Int) }] }
      else db
  let (tid, db) := db.freshId
  { db with inventory_transactions := db.inventory_transactions ++
      [{ id := tid, company_id, product_variant_id := variant_id,
         transaction_type := if is_credit_note then "in" else "out",
         quantity := (quantity.natAbs : Int),
         from_location_id := if !is_credit_note then some location_id else none,
         to_location_id := if is_credit_note then some location_id else none,
         reference_type := some "sale", reference_id := some sale_id,
         supplier_id := none, unit_cost := none, total_cost := none,
         payment_status := "unpaid", amount_paid := 0, amount_due := none }] }

/-- Modelled from the spec: the server-side `generate_sale_number` RPC (not in
the repository's source tree) — a "Sequence/Numbering service" issuing unique,
monotonic sale numbers per (company, sale_type); the number itself carries no
further meaning for the core, so the model draws it from the id counter. -/
def generate_sale_number (db : DB) : Nat × DB :=
  db.freshId

/-- The subtotal / discount_amount / total_amount computation of `create_sale`
(`sales.py` lines 157-165). -/
def sale_totals (items : List SaleItemCreate) (discount_percentage : Rat) :
    Rat × Rat × Rat :=
  let subtotal := items.foldl (fun acc item =>
    acc + (item.quantity : Rat) * item.unit_price) 0
  let discount_amount := subtotal * discount_percentage / 100
  (subtotal, discount_amount, subtotal - discount_amount)

/-- The per-item loop body of `create_sale` (`sales.py` lines 215-238):
insert the `sale_items` row with the uniformly-applied tier discount, then
update inventory through the unguarded sale helper. -/
def create_sale_item_step (company_id location_id sale_id : Nat)
    (discount_percentage : Rat) (db : DB) (item : SaleItemCreate) : DB :=
  let item_discount_amount :=
    (item.quantity : Rat) * item.unit_price * discount_percentage / 100
  let line_total := (item.quantity : Rat) * item.unit_price - item_discount_amount
  let (si_id, db) := db.freshId
  let db : DB := { db with sale_items := db.sale_items ++
      [{ id := si_id, sale_id, product_variant_id := item.product_variant_id,
         quantity := item.quantity, unit_price := item.unit_price,
         discount_percentage, discount_amount := item_discount_amount,
         line_total }] }
  update_inventory_from_sale db company_id item.product_variant_id
    location_id item.quantity sale_id

/-- `create_sale` (`sales.py` lines 94-255). All failure points precede the
first write, so an error leaves the state unchanged. -/
def create_sale (db : DB) (company_id : Nat) (sale_data : SaleCreate) :
    Except ApiErr Sale × DB :=
  match db.customers.find? (fun r =>
      r.id == sale_data.customer_id && r.company_id == company_id) with
  | none => (.error .notFound, db)             -- "Customer not found"
  | some customer =>
    let tier_discount := customer.tier_discount.getD 0
    match db.storage_locations.find? (fun r =>
        r.id == sale_data.storage_location_id && r.company_id == company_id) with
    | none => (.error .notFound, db)           -- "Storage location not found"
    | some _ =>
      -- stock availability loop: only items with quantity > 0 are checked
      if sale_data.items.any (fun item =>
          decide (0 < item.quantity) &&
          !check_stock_availability db item.product_variant_id
            sale_data.storage_location_id item.quantity) then
        (.error .insufficientStock, db)        -- "Insufficient stock for ..."
      else
        let (subtotal, discount_amount, total_amount) :=
          sale_totals sale_data.items tier_discount
        let discount_percentage := tier_discount
        if customer.customer_type ≠ "walk-in" ∧
            customer.credit_limit < customer.current_balance + total_amount then
          (.error .creditLimitExceeded, db)    -- "Credit limit exceeded ..."
        else
          let (sale_number, db) := generate_sale_number db
          let (sale_id, db) := db.freshId
          let sale : Sale :=
            { id := sale_id, company_id, customer_id := sale_data.customer_id,
              sale_number, sale_type := sale_data.sale_type,
              original_sale_id := sale_data.original_sale_id,
              storage_location_id := sale_data.storage_location_id,
              subtotal, discount_percentage, discount_amount, total_amount,
              payment_status := "unpaid", amount_paid := 0, amount_due := total_amount }
          let db := { db with sales := db.sales ++ [sale] }
          -- per-item: insert the sale_items row, then update inventory
          let db := sale_data.items.foldl
            (create_sale_item_step company_id sale_data.storage_location_id sale_id
              discount_percentage) db
          let new_customer_balance := customer.current_balance + total_amount
          let db := { db with customers := db.customers.map fun r =>
              if r.id == sale_data.customer_id then
                { r with current_balance := new_customer_balance } else r }
          (.ok sale, db)

/-- The per-return-line validation and accumulation loop of
`create_credit_note` (`sales.py` lines 533-558): yields the (negative)
subtotal together with the credit-note line data, or the first error. -/
def validate_credit_items (original_items : List SaleItem) :
    List CreditNoteItem → Except ApiErr (Rat × List (Nat × Int × Rat))
  | [] => .ok (0, [])
  | return_item :: rest =>
    match original_items.find? (fun s => s.id == return_item.sale_item_id) with
    | none => .error .notFound        -- "Sale item ... not found in original sale"
    | some original_item =>
      if original_item.quantity < return_item.return_quantity then
        .error .invalidQuantity       -- "Return quantity ... exceeds original quantity"
      else
        match validate_credit_items original_items rest with
        | .error e => .error e
        | .ok (sub, items) =>
          .ok (-(return_item.return_quantity * original_item.unit_price) + sub,
               (original_item.product_variant_id, -return_item.return_quantity,
                original_item.unit_price) :: items)

/-- The per-line loop body of `create_credit_note` (`sales.py` lines 603-627):
insert the (negative-quantity) `sale_items` row, then restock at the original
sale's location. -/
def credit_note_item_step (company_id location_id cn_id : Nat)
    (discount_percentage : Rat) (db : DB) (item : Nat × Int × Rat) : DB :=
  let (variant_id, quantity, unit_price) := item
  let item_discount_amount :=
    (quantity : Rat) * unit_price * discount_percentage / 100
  let line_total := (quantity : Rat) * unit_price - item_discount_amount
  let (si_id, db) := db.freshId
  let db : DB := { db with sale_items := db.sale_items ++
      [{ id := si_id, sale_id := cn_id, product_variant_id := variant_id,
         quantity, unit_price, discount_percentage,
         discount_amount := item_discount_amount, line_total }] }
  update_inventory_from_sale db company_id variant_id
    location_id quantity cn_id true

/-- `create_credit_note` (`sales.py` lines 486-644). The joined customer row
is the one referenced by the original sale's `customer_id`; if that row is
missing the source crashes into the blanket handler (modelled as
`internalError`). All failure points precede the first write. -/
def create_credit_note (db : DB) (company_id : Nat)
    (credit_note_data : CreditNoteCreate) : Except ApiErr Sale × DB :=
  match db.sales.find? (fun r =>
      r.id == credit_note_data.original_sale_id && r.company_id == company_id) with
  | none => (.error .notFound, db)      -- "Original sale not found"
  | some original_sale =>
    if original_sale.sale_type ≠ "invoice" then
      (.error .invalidOperation, db)    -- "Can only create credit notes for invoices"
    else
      match db.customers.find? (fun r => r.id == original_sale.customer_id) with
      | none => (.error .internalError, db)
      | some customer =>
        let tier_discount := customer.tier_discount.getD 0
        let original_items := db.sale_items.filter
          (fun si => si.sale_id == credit_note_data.original_sale_id)
        match validate_credit_items original_items credit_note_data.items with
        | .error e => (.error e, db)
        | .ok (subtotal, credit_note_items) =>
          let discount_percentage := tier_discount
          let discount_amount := subtotal * discount_percentage / 100
          let total_amount := subtotal - discount_amount
          let (sale_number, db) := generate_sale_number db
          let (cn_id, db) := db.freshId
          let credit_note : Sale :=
            { id := cn_id, company_id, customer_id := original_sale.customer_id,
              sale_number, sale_type := "credit_note",
              original_sale_id := some credit_note_data.original_sale_id,
              storage_location_id := original_sale.storage_location_id,
              subtotal, discount_percentage, discount_amount, total_amount,
              payment_status := "unpaid", amount_paid := 0, amount_due := total_amount }
          let db := { db with sales := db.sales ++ [credit_note] }
          let db := credit_note_items.foldl
            (credit_note_item_step company_id original_sale.storage_location_id cn_id
              discount_percentage) db
          let new_customer_balance := customer.current_balance + total_amount
          let db := { db with customers := db.customers.map fun r =>
              if r.id == original_sale.customer_id then
                { r with current_balance := new_customer_balance } else r }
          (.ok credit_note, db)

/-- The derived payment status written by both payment endpoints
(`sales.py` lines 712-717, `expenses.py` lines 455-460). -/
def derived_status (new_amount_paid new_amount_due : Rat) : String :=
  if new_amount_due ≤ 0 then "paid"
  else if 0 < new_amount_paid then "partial"
  else "unpaid"

/-- `record_payment` (`sales.py` lines 646-751). The reference-number rules
run first, then the sale lookup, then the overpayment check; only then are the
payment row, the sale row and the customer balance written. The joined
customer row is read before the writes but only dereferenced after them, so a
missing customer crashes after the payment has been recorded (modelled as
`internalError` carrying the partially-updated state). Returns the
`updated_sale` fields `(payment_status, amount_paid, amount_due)`. -/
def record_payment (db : DB) (company_id : Nat) (payment_data : SalePaymentCreate) :
    Except ApiErr (String × Rat × Rat) × DB :=
  if (payment_data.payment_method == "mpesa" || payment_data.payment_method == "bank" ||
      payment_data.payment_method == "card") && payment_data.reference_number.isNone then
    (.error .validationError, db)   -- "Reference number is required for ... payments"
  else if payment_data.payment_method == "cash" && payment_data.reference_number.isSome then
    (.error .validationError, db)   -- "Reference number should not be provided for cash payments"
  else
    match db.sales.find? (fun r =>
        r.id == payment_data.sale_id && r.company_id == company_id) with
    | none => (.error .notFound, db)  -- "Sale not found"
    | some sale =>
      if sale.amount_due < payment_data.amount then
        (.error .exceedsAmountDue, db)  -- "Payment amount ... exceeds amount due"
      else
        let (pid, db) := db.freshId
        let db : DB := { db with sale_payments := db.sale_payments ++
            [{ id := pid, sale_id := payment_data.sale_id,
               amount := payment_data.amount,
               payment_method := payment_data.payment_method,
               reference_number := payment_data.reference_number }] }
        let new_amount_paid := sale.amount_paid + payment_data.amount
        let new_amount_due := sale.amount_due - payment_data.amount
        let new_payment_status := derived_status new_amount_paid new_amount_due
        let db : DB := { db with sales := db.sales.map fun r =>
            if r.id == payment_data.sale_id then
              { r with amount_paid := new_amount_paid, amount_due := new_amount_due,
                       payment_status := new_payment_status } else r }
        match db.customers.find? (fun r => r.id == sale.customer_id) with
        | none => (.error .internalError, db)
        | some customer =>
          let new_customer_balance := customer.current_balance - payment_data.amount
          let db : DB := { db with customers := db.customers.map fun r =>
              if r.id == sale.customer_id then
                { r with current_balance := new_customer_balance } else r }
          (.ok (new_payment_status, new_amount_paid, new_amount_due), db)

/-! ## Inventory transaction log (`inventory_transactions.py`) -/

/-- An `InventoryTransactionCreate` body; the schema constrains `quantity`
with `gt=0` and the decimal fields with `ge=0`. -/
structure InventoryTransactionCreate where
  product_variant_id : Nat
  transaction_type : String
  quantity : Int
  from_location_id : Option Nat := none
  to_location_id : Option Nat := none
  reference_type : Option String := none
  reference_id : Option Nat := none
  supplier_id : Option Nat := none
  unit_cost : Option Rat := none
  amount_paid : Option Rat := none
  payment_status : Option String := none
deriving DecidableEq, Repr

/-- A `StockAdjustment` body (`quantity_change` may be positive or negative). -/
structure StockAdjustment where
  product_variant_id : Nat
  storage_location_id : Nat
  quantity_change : Int
deriving DecidableEq, Repr

/-- `create_inventory_transaction` (`inventory_transactions.py` lines 61-222):
the `Record` operation. A transfer applies the outgoing delta before the
incoming one; if the second call failed the first write would persist, and the
model keeps whatever state the failure left behind. -/
def create_inventory_transaction (db : DB) (company_id : Nat)
    (t : InventoryTransactionCreate) : Except ApiErr InventoryTransaction × DB :=
  if (db.product_variants.find? (fun r =>
      r.id == t.product_variant_id && r.company_id == company_id)).isNone then
    (.error .notFound, db)            -- "Product variant not found"
  else if t.supplier_id.isSome &&
      (db.suppliers.find? (fun r =>
        some r.id == t.supplier_id && r.company_id == company_id)).isNone then
    (.error .notFound, db)            -- "Supplier not found"
  else
    let total_cost := t.unit_cost.map (fun c => c * (t.quantity : Rat))
    let amount_due :=
      match total_cost, t.amount_paid with
      | some tc, some ap => some (tc - ap)
      | _, _ => none
    let step : Except ApiErr DB :=
      match t.transaction_type with
      | "in" =>
        match t.to_location_id with
        | none => .error .validationError   -- "to_location_id is required for stock in"
        | some loc => update_inventory_quantity db company_id t.product_variant_id loc t.quantity
      | "out" =>
        match t.from_location_id with
        | none => .error .validationError   -- "from_location_id is required for stock out"
        | some loc => update_inventory_quantity db company_id t.product_variant_id loc (-t.quantity)
      | "transfer" =>
        match t.from_location_id, t.to_location_id with
        | some floc, some tloc =>
          match update_inventory_quantity db company_id t.product_variant_id floc (-t.quantity) with
          | .error e => .error e
          | .ok db1 => update_inventory_quantity db1 company_id t.product_variant_id tloc t.quantity
        | _, _ => .error .validationError   -- "Both ... are required for transfer"
      | "adjustment" =>
        match t.to_location_id, t.from_location_id with
        | some tloc, _ => update_inventory_quantity db company_id t.product_variant_id tloc t.quantity
        | none, some floc => update_inventory_quantity db company_id t.product_variant_id floc (-t.quantity)
        | none, none => .error .validationError  -- "Either ... is required for adjustment"
      | _ => .ok db
    match step with
    | .error e =>
      -- a failed transfer leaves the first delta applied in the source; the
      -- model's `update_inventory_quantity` only fails before writing, so the
      -- observable state on error is the pre-call one except for that case,
      -- which never errors for the schema-valid quantities (> 0)
      (.error e, db)
    | .ok db =>
      let (tid, db) := db.freshId
      let txn : InventoryTransaction :=
        { id := tid, company_id, product_variant_id := t.product_variant_id,
          transaction_type := t.transaction_type, quantity := t.quantity,
          from_location_id := t.from_location_id, to_location_id := t.to_location_id,
          reference_type := t.reference_type, reference_id := t.reference_id,
          supplier_id := t.supplier_id, unit_cost := t.unit_cost, total_cost,
          payment_status := t.payment_status.getD "unpaid",
          amount_paid := t.amount_paid.getD 0, amount_due }
      ({ db with inventory_transactions := db.inventory_transactions ++ [txn] } |>
        fun db => (.ok txn, db))

/-- `adjust_stock` (`inventory_transactions.py` lines 276-314): `AdjustStock`. -/
def adjust_stock (db : DB) (company_id : Nat) (adjustment : StockAdjustment) :
    Except ApiErr InventoryTransaction × DB :=
  match update_inventory_quantity db company_id adjustment.product_variant_id
      adjustment.storage_location_id adjustment.quantity_change with
  | .error e => (.error e, db)
  | .ok db =>
    let (tid, db) := db.freshId
    let txn : InventoryTransaction :=
      { id := tid, company_id, product_variant_id := adjustment.product_variant_id,
        transaction_type := "adjustment",
        quantity := (adjustment.quantity_change.natAbs : Int),
        from_location_id := if adjustment.quantity_change < 0 then
          some adjustment.storage_location_id else none,
        to_location_id := if 0 < adjustment.quantity_change then
          some adjustment.storage_location_id else none,
        reference_type := none, reference_id := none, supplier_id := none,
        unit_cost := none, total_cost := none,
        payment_status := "unpaid", amount_paid := 0, amount_due := none }
    ({ db with inventory_transactions := db.inventory_transactions ++ [txn] } |>
      fun db => (.ok txn, db))

/-- The stock update of `reverse_transaction` at an optional location
(`reverse_to` / `reverse_from` may be NULL on stored rows; for transactions
created through the validated API they never are, and a NULL location would
match no inventory row in the source, so the model skips the write). -/
def uiq_opt (db : DB) (company_id variant_id : Nat) (location : Option Nat)
    (quantity_change : Int) : Except ApiErr DB :=
  match location with
  | some loc => update_inventory_quantity db company_id variant_id loc quantity_change
  | none => .ok db

/-- `reverse_transaction` (`inventory_transactions.py` lines 316-430):
`Reverse`. The already-reversed check matches `reference_type = reversal`,
`reference_id = transaction_id` over all companies (the source omits the
company filter there). An `adjustment` original falls through the
stock-update dispatch silently and only the reversal row is appended. -/
def reverse_transaction (db : DB) (company_id transaction_id : Nat) :
    Except ApiErr InventoryTransaction × DB :=
  match db.inventory_transactions.find? (fun r =>
      r.id == transaction_id && r.company_id == company_id) with
  | none => (.error .notFound, db)    -- "Transaction not found"
  | some original =>
    if db.inventory_transactions.any (fun r =>
        r.reference_type == some "reversal" && r.reference_id == some transaction_id) then
      (.error .alreadyReversed, db)   -- "Transaction already reversed"
    else
      let (reverse_type, reverse_from, reverse_to) :
          String × Option Nat × Option Nat :=
        if original.transaction_type == "in" then
          ("out", original.to_location_id, none)
        else if original.transaction_type == "out" then
          ("in", none, original.from_location_id)
        else
          (original.transaction_type, original.to_location_id, original.from_location_id)
      let step : Except ApiErr DB :=
        if reverse_type == "in" then
          uiq_opt db company_id original.product_variant_id reverse_to original.quantity
        else if reverse_type == "out" then
          uiq_opt db company_id original.product_variant_id reverse_from (-original.quantity)
        else if reverse_type == "transfer" then
          match uiq_opt db company_id original.product_variant_id reverse_from
              original.quantity with
          | .error e => .error e
          | .ok db1 =>
            uiq_opt db1 company_id original.product_variant_id reverse_to
              (-original.quantity)
        else .ok db
      match step with
      | .error e => (.error e, db)
      | .ok db =>
        let (tid, db) := db.freshId
        let txn : InventoryTransaction :=
          { id := tid, company_id, product_variant_id := original.product_variant_id,
            transaction_type := reverse_type, quantity := original.quantity,
            from_location_id := reverse_from, to_location_id := reverse_to,
            reference_type := some "reversal", reference_id := some transaction_id,
            supplier_id := none, unit_cost := none, total_cost := none,
            payment_status := "unpaid", amount_paid := 0, amount_due := none }
        ({ db with inventory_transactions := db.inventory_transactions ++ [txn] } |>
          fun db => (.ok txn, db))

/-! ## Expense ledger (`expenses.py`)

Python's `datetime.date` is modelled by its proleptic-Gregorian ordinal
(`date.toordinal`): day 1 is 0001-01-01, a Monday, so `weekday()` is
`(ordinal - 1) % 7` with Monday = 0. `timedelta(days = n)` is `+ n` on
ordinals and date comparison is ordinal comparison. -/

/-- Gregorian leap-year rule (`calendar.isleap`). -/
def isLeap (y : Nat) : Bool :=
  y % 4 == 0 && (y % 100 != 0 || y % 400 == 0)

/-- Number of days in a month (`calendar.monthrange(y, m)[1]`). -/
def monthLen (y m : Nat) : Nat :=
  if m == 2 then (if isLeap y then 29 else 28)
  else if m == 4 || m == 6 || m == 9 || m == 11 then 30
  else 31

/-- Days in year `y` strictly before month `m`. -/
def daysBeforeMonth (y : Nat) : Nat → Nat
  | 0 => 0
  | 1 => 0
  | m + 1 => daysBeforeMonth y m + monthLen y m

/-- `date(y, m, d).toordinal()`. -/
def toOrd (y m d : Nat) : Int :=
  ((365 * (y - 1) + (y - 1) / 4 - (y - 1) / 100 + (y - 1) / 400
    + daysBeforeMonth y m + d : Nat) : Int)

/-- Ordinal of a `PyDate`. -/
def PyDate.ord (d : PyDate) : Int :=
  toOrd d.year d.month d.day

/-- `date.weekday()` of the date with the given ordinal (Monday = 0). -/
def pyWeekday (ordinal : Int) : Int :=
  (ordinal - 1) % 7

/-- The weekly `while` loop of `generate_recurring_dates`
(`expenses.py` lines 50-52): collect `current, current+7, ...` while
`current <= boundary`, up to the remaining occurrence budget. -/
def weeklyDates (boundary : Int) : Nat → Int → List Int
  | 0, _ => []
  | n + 1, current =>
    if current ≤ boundary then current :: weeklyDates boundary n (current + 7)
    else []

/-- The monthly `for` loop of `generate_recurring_dates`
(`expenses.py` lines 55-73): step to the next month, clamp the requested
day-of-month to that month's length, and stop at the first date past the
boundary. -/
def monthlyDates (boundary : Int) (day_of_month : Nat) :
    Nat → Nat → Nat → List Int
  | 0, _, _ => []
  | n + 1, year, month =>
    let month' := month + 1
    let (year', month'') := if 12 < month' then (year + 1, 1) else (year, month')
    let last_day := monthLen year' month''
    let actual_day := min day_of_month last_day
    let next_date := toOrd year' month'' actual_day
    if boundary < next_date then []
    else next_date :: monthlyDates boundary day_of_month n year' month''

/-- `generate_recurring_dates` (`expenses.py` lines 27-75). The source's
`day_of_week` / `day_of_month` arguments are `Optional` but unconditionally
dereferenced in the matching branch; `create_expense` validates them as
present before calling, so the model takes them unwrapped. -/
def generate_recurring_dates (start_date : PyDate) (frequency : String)
    (day_of_week : Int) (day_of_month : Nat) (end_date : Option PyDate)
    (max_occurrences : Nat := 12) : List Int :=
  let startOrd := start_date.ord
  let boundary :=
    match end_date with
    | some e => min e.ord (startOrd + 365)
    | none => startOrd + 365
  if frequency == "weekly" then
    let days_ahead := day_of_week - pyWeekday startOrd
    let days_ahead := if days_ahead ≤ 0 then days_ahead + 7 else days_ahead
    weeklyDates boundary max_occurrences (startOrd + days_ahead)
  else if frequency == "monthly" then
    monthlyDates boundary day_of_month max_occurrences start_date.year start_date.month
  else []

/-- An `ExpenseCreate` body; the schema constrains `amount` with `gt=0`,
`recurrence_day_of_week` with `ge=0, le=6` and `recurrence_day_of_month`
with `ge=1, le=31`. -/
structure ExpenseCreate where
  expense_category_id : Nat
  expense_type : String
  amount : Rat
  supplier_id : Option Nat := none
  sale_id : Option Nat := none
  expense_date : PyDate
  is_recurring : Bool := false
  recurrence_frequency : Option String := none
  recurrence_day_of_week : Option Int := none
  recurrence_day_of_month : Option Nat := none
  recurrence_end_date : Option PyDate := none
deriving DecidableEq, Repr

/-- An `ExpenseUpdate` body (only the fields that interact with the money /
status invariants are modelled; the rest is pass-through metadata). -/
structure ExpenseUpdate where
  amount : Option Rat := none
  payment_status : Option String := none
deriving DecidableEq, Repr

/-- An `ExpensePaymentCreate` body; the schema constrains `amount` with `gt=0`. -/
structure ExpensePaymentCreate where
  amount : Rat
  payment_method : String
  reference_number : Option String := none
deriving DecidableEq, Repr

/-- The child-insert loop body of `create_expense` (`expenses.py` lines
206-215): each generated date yields an independent copy of the parent row
with its own date and `parent_expense_id`. -/
def create_expense_child_step (parent : Expense) (pid : Nat) (db : DB) (d : Int) : DB :=
  let (cid, db) := db.freshId
  { db with expenses := db.expenses ++
      [{ parent with id := cid, expense_date := d,
                     parent_expense_id := some pid }] }

/-- `create_expense` (`expenses.py` lines 78-225). The child records spread
the parent's `expense_record` and replace only `expense_date` and
`parent_expense_id` (the payment fields they re-set are already those of the
parent). All failure points precede the first write. -/
def create_expense (db : DB) (company_id : Nat) (e : ExpenseCreate) :
    Except ApiErr Expense × DB :=
  match db.expense_categories.find? (fun r =>
      r.id == e.expense_category_id && r.company_id == company_id && r.is_active) with
  | none => (.error .notFound, db)    -- "Expense category not found"
  | some category =>
    if category.expense_type ≠ e.expense_type then
      (.error .validationError, db)   -- "Category is for ... expenses, not ..."
    else if e.expense_type == "sales" && e.sale_id.isNone then
      (.error .validationError, db)   -- "Sales expenses must be linked to a sale"
    else if e.supplier_id.isSome &&
        (db.suppliers.find? (fun r =>
          some r.id == e.supplier_id && r.company_id == company_id)).isNone then
      (.error .notFound, db)          -- "Supplier not found"
    else if e.sale_id.isSome &&
        (db.sales.find? (fun r =>
          some r.id == e.sale_id && r.company_id == company_id)).isNone then
      (.error .notFound, db)          -- "Sale not found"
    else if e.is_recurring && e.recurrence_frequency.isNone then
      (.error .validationError, db)   -- "Recurrence frequency is required ..."
    else if e.is_recurring && e.recurrence_frequency == some "weekly" &&
        e.recurrence_day_of_week.isNone then
      (.error .validationError, db)   -- "Day of week is required ..."
    else if e.is_recurring && e.recurrence_frequency == some "monthly" &&
        e.recurrence_day_of_month.isNone then
      (.error .validationError, db)   -- "Day of month is required ..."
    else
      let (pid, db) := db.freshId
      let parent : Expense :=
        { id := pid, company_id, expense_category_id := e.expense_category_id,
          expense_type := e.expense_type, amount := e.amount,
          supplier_id := e.supplier_id, sale_id := e.sale_id,
          payment_status := "unpaid", amount_paid := 0, amount_due := e.amount,
          is_recurring := e.is_recurring,
          recurrence_frequency := e.recurrence_frequency,
          recurrence_day_of_week := e.recurrence_day_of_week,
          recurrence_day_of_month := e.recurrence_day_of_month,
          expense_date := e.expense_date.ord, parent_expense_id := none }
      let db : DB := { db with expenses := db.expenses ++ [parent] }
      let db : DB :=
        if e.is_recurring then
          let recurring_dates := generate_recurring_dates e.expense_date
            (e.recurrence_frequency.getD "") (e.recurrence_day_of_week.getD 0)
            (e.recurrence_day_of_month.getD 0) e.recurrence_end_date
          recurring_dates.foldl (create_expense_child_step parent pid) db
        else db
      (.ok parent, db)

/-- `update_expense` (`expenses.py` lines 342-393). When `amount` changes,
`amount_due` is recomputed as `amount - amount_paid` of the pre-read row, but
`payment_status` is only written if the request carries one explicitly. The
source's final `update` filters by `id` only. -/
def update_expense (db : DB) (company_id expense_id : Nat) (u : ExpenseUpdate) :
    Except ApiErr Expense × DB :=
  match db.expenses.find? (fun r =>
      r.id == expense_id && r.company_id == company_id) with
  | none => (.error .notFound, db)    -- "Expense not found"
  | some current =>
    let upd : Expense → Expense := fun e =>
      let e := match u.payment_status with
               | some s => { e with payment_status := s }
               | none => e
      match u.amount with
      | some a => { e with amount := a, amount_due := a - current.amount_paid }
      | none => e
    let db : DB := { db with expenses := db.expenses.map fun r =>
        if r.id == expense_id then upd r else r }
    (.ok (upd current), db)

/-- `record_expense_payment` (`expenses.py` lines 396-487). Unlike the sale
payment endpoint, the overpayment check runs before the reference-number
check, and there is no rule forbidding a reference number on cash payments.
Returns the `updated_expense` fields `(payment_status, amount_paid,
amount_due)`. -/
def record_expense_payment (db : DB) (company_id expense_id : Nat)
    (payment_data : ExpensePaymentCreate) : Except ApiErr (String × Rat × Rat) × DB :=
  match db.expenses.find? (fun r =>
      r.id == expense_id && r.company_id == company_id) with
  | none => (.error .notFound, db)    -- "Expense not found"
  | some expense =>
    if expense.amount_due < payment_data.amount then
      (.error .exceedsAmountDue, db)  -- "Payment amount ... exceeds amount due"
    else if (payment_data.payment_method == "mpesa" ||
        payment_data.payment_method == "bank" ||
        payment_data.payment_method == "card") &&
        payment_data.reference_number.isNone then
      (.error .validationError, db)   -- "Reference number is required for ... payments"
    else
      let (pid, db) := db.freshId
      let db : DB := { db with expense_payments := db.expense_payments ++
          [{ id := pid, company_id, expense_id,
             amount := payment_data.amount,
             payment_method := payment_data.payment_method,
             reference_number := payment_data.reference_number }] }
      let new_amount_paid := expense.amount_paid + payment_data.amount
      let new_amount_due := expense.amount_due - payment_data.amount
      let new_payment_status := derived_status new_amount_paid new_amount_due
      let db : DB := { db with expenses := db.expenses.map fun r =>
          if r.id == expense_id then
            { r with amount_paid := new_amount_paid, amount_due := new_amount_due,
                     payment_status := new_payment_status } else r }
      (.ok (new_payment_status, new_amount_paid, new_amount_due), db)

/-! ## Concrete example states (used to instantiate the theorems) -/

/-- A state with a single inventory row: variant 2 at location 3, quantity 10. -/
def exInvDB : DB :=
  { customers := [], storage_locations := [], product_variants := [], suppliers := [],
    inventory_items := [{ id := 1, company_id := 1, product_variant_id := 2,
                          storage_location_id := 3, quantity := 10 }],
    inventory_transactions := [], sales := [], sale_items := [], sale_payments := [],
    expense_categories := [], expenses := [], expense_payments := [], next_id := 50 }

/-- A state for exercising `create_sale`: a walk-in customer, one location and
10 units of variant 2 on hand at location 3. -/
def exSaleDB : DB :=
  { customers := [{ id := 1, company_id := 1, customer_type := "walk-in",
                    credit_limit := 0, current_balance := 0, tier_discount := none }],
    storage_locations := [{ id := 3, company_id := 1 }],
    product_variants := [{ id := 2, company_id := 1 }], suppliers := [],
    inventory_items := [{ id := 4, company_id := 1, product_variant_id := 2,
                          storage_location_id := 3, quantity := 10 }],
    inventory_transactions := [], sales := [], sale_items := [], sale_payments := [],
    expense_categories := [], expenses := [], expense_payments := [], next_id := 100 }

/-- The C1 failing request: one sale whose two lines sell the same variant,
6 + 6 units against 10 on hand. Each line passes the per-item availability
check; the two unguarded writes drive the stored quantity to -2. -/
def c1Req : SaleCreate :=
  { customer_id := 1, storage_location_id := 3,
    items := [{ product_variant_id := 2, quantity := 6, unit_price := 5 },
              { product_variant_id := 2, quantity := 6, unit_price := 5 }] }

/-- A one-line sale request: 1 unit of variant 2 at 10 apiece. -/
def c2Req : SaleCreate :=
  { customer_id := 1, storage_location_id := 3,
    items := [{ product_variant_id := 2, quantity := 1, unit_price := 10 }] }

/-- The sale `create_sale exSaleDB 1 c2Req` persists and returns. -/
def c2Sale : Sale :=
  { id := 101, company_id := 1, customer_id := 1, sale_number := 100,
    sale_type := "invoice", original_sale_id := none, storage_location_id := 3,
    subtotal := 10, discount_percentage := 0, discount_amount := 0,
    total_amount := 10, payment_status := "unpaid", amount_paid := 0,
    amount_due := 10 }

/-- An open invoice of 1000 against customer 1, nothing paid yet. -/
def c2SaleRow : Sale :=
  { id := 10, company_id := 1, customer_id := 1, sale_number := 7,
    sale_type := "invoice", original_sale_id := none, storage_location_id := 3,
    subtotal := 1000, discount_percentage := 0, discount_amount := 0,
    total_amount := 1000, payment_status := "unpaid", amount_paid := 0,
    amount_due := 1000 }

/-- A state holding the open invoice `c2SaleRow` and its customer. -/
def c2PayDB : DB :=
  { customers := [{ id := 1, company_id := 1, customer_type := "business",
                    credit_limit := 5000, current_balance := 1000,
                    tier_discount := none }],
    storage_locations := [{ id := 3, company_id := 1 }],
    product_variants := [], suppliers := [], inventory_items := [],
    inventory_transactions := [], sales := [c2SaleRow], sale_items := [],
    sale_payments := [], expense_categories := [], expenses := [],
    expense_payments := [], next_id := 200 }

/-- A cash payment of 400 against sale 10. -/
def c2Pay : SalePaymentCreate :=
  { sale_id := 10, amount := 400, payment_method := "cash" }

/-- A business customer with head-room on their credit line. -/
def c4Cust : Customer :=
  { id := 1, company_id := 1, customer_type := "business",
    credit_limit := 100, current_balance := 50, tier_discount := none }

/-- `exSaleDB` with the walk-in customer replaced by `c4Cust`. -/
def c4DB : DB :=
  { customers := [c4Cust],
    storage_locations := [{ id := 3, company_id := 1 }],
    product_variants := [{ id := 2, company_id := 1 }], suppliers := [],
    inventory_items := [{ id := 4, company_id := 1, product_variant_id := 2,
                          storage_location_id := 3, quantity := 10 }],
    inventory_transactions := [], sales := [], sale_items := [], sale_payments := [],
    expense_categories := [], expenses := [], expense_payments := [], next_id := 100 }

/-- An open expense of 50, nothing paid yet. -/
def c6Exp : Expense :=
  { id := 7, company_id := 1, expense_category_id := 20,
    expense_type := "standard", amount := 50, supplier_id := none,
    sale_id := none, payment_status := "unpaid", amount_paid := 0,
    amount_due := 50, is_recurring := false, recurrence_frequency := none,
    recurrence_day_of_week := none, recurrence_day_of_month := none,
    expense_date := 739536, parent_expense_id := none }

/-- A state holding only the open expense `c6Exp`. -/
def c6ExpDB : DB :=
  { customers := [], storage_locations := [], product_variants := [],
    suppliers := [], inventory_items := [], inventory_transactions := [],
    sales := [], sale_items := [], sale_payments := [],
    expense_categories := [{ id := 20, company_id := 1,
                             expense_type := "standard", is_active := true }],
    expenses := [c6Exp], expense_payments := [], next_id := 300 }

/-- A fully paid expense of 100. -/
def c7PaidExp : Expense :=
  { id := 5, company_id := 1, expense_category_id := 20,
    expense_type := "standard", amount := 100, supplier_id := none,
    sale_id := none, payment_status := "paid", amount_paid := 100,
    amount_due := 0, is_recurring := false, recurrence_frequency := none,
    recurrence_day_of_week := none, recurrence_day_of_month := none,
    expense_date := 739536, parent_expense_id := none }

/-- A state holding only the paid expense `c7PaidExp`. -/
def c7PaidDB : DB :=
  { customers := [], storage_locations := [], product_variants := [],
    suppliers := [], inventory_items := [], inventory_transactions := [],
    sales := [], sale_items := [], sale_payments := [],
    expense_categories := [{ id := 20, company_id := 1,
                             expense_type := "standard", is_active := true }],
    expenses := [c7PaidExp], expense_payments := [], next_id := 400 }

/-- A stock-in of 5 units of variant 2 at location 3. -/
def c8Txn : InventoryTransaction :=
  { id := 9, company_id := 1, product_variant_id := 2, transaction_type := "in",
    quantity := 5, from_location_id := none, to_location_id := some 3,
    reference_type := none, reference_id := none, supplier_id := none,
    unit_cost := none, total_cost := none, payment_status := "unpaid",
    amount_paid := 0, amount_due := none }

/-- The reversal row the first `reverse_transaction` call appends for `c8Txn`. -/
def c8Rev : InventoryTransaction :=
  { id := 500, company_id := 1, product_variant_id := 2,
    transaction_type := "out", quantity := 5, from_location_id := some 3,
    to_location_id := none, reference_type := some "reversal",
    reference_id := some 9, supplier_id := none, unit_cost := none,
    total_cost := none, payment_status := "unpaid", amount_paid := 0,
    amount_due := none }

/-- A state holding `c8Txn` and 10 units on hand at its location. -/
def c8DB : DB :=
  { customers := [], storage_locations := [{ id := 3, company_id := 1 }],
    product_variants := [{ id := 2, company_id := 1 }], suppliers := [],
    inventory_items := [{ id := 4, company_id := 1, product_variant_id := 2,
                          storage_location_id := 3, quantity := 10 }],
    inventory_transactions := [c8Txn], sales := [], sale_items := [],
    sale_payments := [], expense_categories := [], expenses := [],
    expense_payments := [], next_id := 500 }

/-- The original invoice for the credit-note scenario: 5 units sold. -/
def c5Orig : Sale :=
  { id := 30, company_id := 1, customer_id := 1, sale_number := 3,
    sale_type := "invoice", original_sale_id := none, storage_location_id := 3,
    subtotal := 50, discount_percentage := 10, discount_amount := 5,
    total_amount := 45, payment_status := "unpaid", amount_paid := 0,
    amount_due := 45 }

/-- The invoice line: 5 units of variant 2 at 10 apiece. -/
def c5Item : SaleItem :=
  { id := 31, sale_id := 30, product_variant_id := 2, quantity := 5,
    unit_price := 10, discount_percentage := 10, discount_amount := 5,
    line_total := 45 }

/-- The customer, on a 10% tier. -/
def c5Cust : Customer :=
  { id := 1, company_id := 1, customer_type := "business",
    credit_limit := 1000, current_balance := 45, tier_discount := some 10 }

/-- A state holding the original invoice, its line, the customer and 5 units
back on hand. -/
def c5DB : DB :=
  { customers := [c5Cust],
    storage_locations := [{ id := 3, company_id := 1 }],
    product_variants := [{ id := 2, company_id := 1 }], suppliers := [],
    inventory_items := [{ id := 4, company_id := 1, product_variant_id := 2,
                          storage_location_id := 3, quantity := 5 }],
    inventory_transactions := [], sales := [c5Orig], sale_items := [c5Item],
    sale_payments := [], expense_categories := [], expenses := [],
    expense_payments := [], next_id := 600 }

/-- Return 3 of the 5 units. -/
def c5Req : CreditNoteCreate :=
  { original_sale_id := 30, items := [{ sale_item_id := 31, return_quantity := 3 }] }

/-- The child rows the `create_expense` recurrence loop inserts, in order:
one copy of the parent per date, with ids drawn from the counter. -/
def childrenOf (parent : Expense) (pid : Nat) : Nat → List Int → List Expense
  | _, [] => []
  | nid, d :: rest =>
    { parent with id := nid, expense_date := d, parent_expense_id := some pid }
      :: childrenOf parent pid (nid + 1) rest

/-- A weekly recurring expense request starting Monday 2026-10-12 with
Thursday (`3`) as recurrence day and no end date. -/
def c10Req : ExpenseCreate :=
  { expense_category_id := 20, expense_type := "standard", amount := 100,
    expense_date := { year := 2026, month := 10, day := 12 },
    is_recurring := true, recurrence_frequency := some "weekly",
    recurrence_day_of_week := some 3, recurrence_day_of_month := none,
    recurrence_end_date := none }

/-! ## Shared facts about the stock ledger primitive -/

/-- The row returned by the (variant, location) inventory query carries those
key columns. -/
theorem inv_find_key {db : DB} {v l : Nat} {item : InventoryItem}
    (h : db.inventory_items.find? (fun r =>
        r.product_variant_id == v && r.storage_location_id == l) = some item) :
    item.product_variant_id = v ∧ item.storage_location_id = l := by
  have hp := List.find?_some h
  simpa using hp

/-- Rewriting the quantity of the found row (an `update ... eq id`) makes the
(variant, location) query read the new quantity. -/
theorem qtyAt_after_row_update {db : DB} {v l : Nat} {item : InventoryItem} (q : Int)
    (hfind : db.inventory_items.find? (fun r =>
        r.product_variant_id == v && r.storage_location_id == l) = some item) :
    qtyAt { db with inventory_items := db.inventory_items.map fun r =>
        if r.id == item.id then { r with quantity := q } else r } v l = some q := by
  unfold qtyAt
  rw [List.find?_map]
  have hkey : ((fun (r : InventoryItem) =>
      r.product_variant_id == v && r.storage_location_id == l) ∘
      (fun r => if r.id == item.id then { r with quantity := q } else r)) =
      (fun (r : InventoryItem) =>
        r.product_variant_id == v && r.storage_location_id == l) := by
    funext r
    by_cases h : r.id = item.id <;> simp [h]
  rw [hkey, hfind]
  simp

/-- Appending a fresh (variant, location) row when the query found none makes
the query read that row's quantity. -/
theorem qtyAt_after_insert {db : DB} {v l : Nat} (row : InventoryItem)
    (hnone : db.inventory_items.find? (fun r =>
        r.product_variant_id == v && r.storage_location_id == l) = none)
    (hv : row.product_variant_id = v) (hl : row.storage_location_id = l) :
    qtyAt { db with inventory_items := db.inventory_items ++ [row] } v l
      = some row.quantity := by
  unfold qtyAt
  rw [List.find?_append, hnone]
  simp [List.find?, hv, hl]

/-- C3: `ApplyDelta` = `update_inventory_quantity` behaves per its contract:
with no (variant, location) row it creates one holding `delta` when
`delta ≥ 0` and fails (`Cannot create negative inventory`) otherwise; with a
row holding `q` it fails with `Insufficient stock` when `q + delta < 0` and
otherwise persists `q + delta`. -/
theorem C3_apply_delta_contract (db : DB) (company_id variant_id location_id : Nat)
    (delta : Int) :
    (qtyAt db variant_id location_id = none → delta < 0 →
      update_inventory_quantity db company_id variant_id location_id delta
        = .error .invalidTransition) ∧
    (qtyAt db variant_id location_id = none → 0 ≤ delta →
      ∃ db', update_inventory_quantity db company_id variant_id location_id delta
          = .ok db' ∧ qtyAt db' variant_id location_id = some delta) ∧
    (∀ q, qtyAt db variant_id location_id = some q → q + delta < 0 →
      update_inventory_quantity db company_id variant_id location_id delta
        = .error .insufficientStock) ∧
    (∀ q, qtyAt db variant_id location_id = some q → 0 ≤ q + delta →
      ∃ db', update_inventory_quantity db company_id variant_id location_id delta
          = .ok db' ∧ qtyAt db' variant_id location_id = some (q + delta)) := by
  cases hfind : db.inventory_items.find? (fun r =>
      r.product_variant_id == variant_id && r.storage_location_id == location_id) with
  | none =>
    have hq : qtyAt db variant_id location_id = none := by
      unfold qtyAt; rw [hfind]; rfl
    refine ⟨fun _ hneg => ?_, fun _ hpos => ?_, fun q hcontra => ?_, fun q hcontra => ?_⟩
    · simp [update_inventory_quantity, hfind, hneg]
    · refine ⟨{ db with
          inventory_items := db.inventory_items ++
            [{ id := db.next_id, company_id := company_id,
               product_variant_id := variant_id,
               storage_location_id := location_id, quantity := delta }],
          next_id := db.next_id + 1 }, ?_, ?_⟩
      · simp [update_inventory_quantity, DB.freshId, hfind, not_lt.mpr hpos]
      · simp [qtyAt, List.find?_append, hfind, List.find?]
    · rw [hq] at hcontra; cases hcontra
    · rw [hq] at hcontra; cases hcontra
  | some item =>
    have hq : qtyAt db variant_id location_id = some item.quantity := by
      unfold qtyAt; rw [hfind]; rfl
    refine ⟨fun hcontra => ?_, fun hcontra => ?_, fun q hsome hneg => ?_,
            fun q hsome hge => ?_⟩
    · rw [hq] at hcontra; cases hcontra
    · rw [hq] at hcontra; cases hcontra
    · have hiq : item.quantity = q := by
        rw [hq] at hsome; exact Option.some_injective _ hsome
      simp [update_inventory_quantity, hfind, hiq, hneg]
    · have hiq : item.quantity = q := by
        rw [hq] at hsome; exact Option.some_injective _ hsome
      refine ⟨{ db with inventory_items := db.inventory_items.map fun r =>
          if r.id == item.id then { r with quantity := item.quantity + delta }
          else r }, ?_, ?_⟩
      · simp [update_inventory_quantity, hfind, not_lt.mpr (hiq ▸ hge)]
      · rw [← hiq]
        exact qtyAt_after_row_update _ hfind

/-- C3 witness: stock 10, delta -4 persists 6. -/
theorem C3_apply_delta_contract_witness :
    (qtyAt exInvDB 2 3 = some 10 ∧ (0 : Int) ≤ 10 + (-4)) ∧
    ∃ db', update_inventory_quantity exInvDB 1 2 3 (-4) = .ok db' ∧
      qtyAt db' 2 3 = some (10 + (-4)) :=
  ⟨⟨rfl, by decide⟩,
   (C3_apply_delta_contract exInvDB 1 2 3 (-4)).2.2.2 10 rfl (by decide)⟩

/-- C1: the quantity invariant does NOT survive `create_sale`. With 10 units
on hand, a sale whose two lines request 6 units each of the same variant
passes both availability checks (each is made against the original quantity,
before any write) and then `update_inventory_from_sale` — which has no
negative-stock guard — persists quantity -2 without any error. -/
theorem C1_create_sale_persists_negative_quantity :
    (create_sale exSaleDB 1 c1Req).1.toOption.isSome = true ∧
    qtyAt (create_sale exSaleDB 1 c1Req).2 2 3 = some (-2) ∧
    ¬ (∀ r ∈ (create_sale exSaleDB 1 c1Req).2.inventory_items, 0 ≤ r.quantity) := by
  refine ⟨rfl, rfl, ?_⟩
  decide

/-! ## Field-preservation facts for the sale/credit-note write loops -/

/-- The sale inventory helper only touches `inventory_items`,
`inventory_transactions` and the id counter. -/
theorem update_inventory_from_sale_others (db : DB) (c v l : Nat) (q : Int)
    (sid : Nat) (cn : Bool) :
    (update_inventory_from_sale db c v l q sid cn).sales = db.sales ∧
    (update_inventory_from_sale db c v l q sid cn).customers = db.customers ∧
    (update_inventory_from_sale db c v l q sid cn).expenses = db.expenses := by
  unfold update_inventory_from_sale DB.freshId
  cases hfind : db.inventory_items.find? (fun r =>
      r.product_variant_id == v && r.storage_location_id == l) <;>
    cases cn <;> simp

/-- The `create_sale` per-item step leaves `sales` and `customers` alone. -/
theorem create_sale_item_step_others (c l sid : Nat) (dp : Rat) (db : DB)
    (it : SaleItemCreate) :
    (create_sale_item_step c l sid dp db it).sales = db.sales ∧
    (create_sale_item_step c l sid dp db it).customers = db.customers := by
  simp [create_sale_item_step, DB.freshId, update_inventory_from_sale_others]

/-- The `create_credit_note` per-line step leaves `sales` and `customers` alone. -/
theorem credit_note_item_step_others (c l cnid : Nat) (dp : Rat) (db : DB)
    (it : Nat × Int × Rat) :
    (credit_note_item_step c l cnid dp db it).sales = db.sales ∧
    (credit_note_item_step c l cnid dp db it).customers = db.customers := by
  obtain ⟨v, q, p⟩ := it
  simp [credit_note_item_step, DB.freshId, update_inventory_from_sale_others]

/-- Folding a step that preserves `sales` and `customers` preserves both. -/
theorem foldl_preserves_sales_customers {α : Type} (f : DB → α → DB)
    (hf : ∀ db a, (f db a).sales = db.sales ∧ (f db a).customers = db.customers) :
    ∀ (l : List α) (db : DB),
      (l.foldl f db).sales = db.sales ∧ (l.foldl f db).customers = db.customers
  | [], _ => ⟨rfl, rfl⟩
  | a :: l, db => by
    have ih := foldl_preserves_sales_customers f hf l (f db a)
    simp only [List.foldl_cons]
    exact ⟨ih.1.trans (hf db a).1, ih.2.trans (hf db a).2⟩

/-- The `create_sale` item loop leaves the `sales` table alone. -/
theorem create_sale_fold_sales (c l sid : Nat) (dp : Rat)
    (items : List SaleItemCreate) (db : DB) :
    (items.foldl (create_sale_item_step c l sid dp) db).sales = db.sales :=
  (foldl_preserves_sales_customers _
    (fun d a => create_sale_item_step_others c l sid dp d a) items db).1

/-- The `create_sale` item loop leaves the `customers` table alone. -/
theorem create_sale_fold_customers (c l sid : Nat) (dp : Rat)
    (items : List SaleItemCreate) (db : DB) :
    (items.foldl (create_sale_item_step c l sid dp) db).customers = db.customers :=
  (foldl_preserves_sales_customers _
    (fun d a => create_sale_item_step_others c l sid dp d a) items db).2

/-- The `create_credit_note` line loop leaves the `sales` table alone. -/
theorem credit_note_fold_sales (c l cnid : Nat) (dp : Rat)
    (items : List (Nat × Int × Rat)) (db : DB) :
    (items.foldl (credit_note_item_step c l cnid dp) db).sales = db.sales :=
  (foldl_preserves_sales_customers _
    (fun d a => credit_note_item_step_others c l cnid dp d a) items db).1

/-- The `create_credit_note` line loop leaves the `customers` table alone. -/
theorem credit_note_fold_customers (c l cnid : Nat) (dp : Rat)
    (items : List (Nat × Int × Rat)) (db : DB) :
    (items.foldl (credit_note_item_step c l cnid dp) db).customers = db.customers :=
  (foldl_preserves_sales_customers _
    (fun d a => credit_note_item_step_others c l cnid dp d a) items db).2

/-- C2: `amount_paid + amount_due = total_amount` holds at creation — both
`create_sale` and `create_credit_note` persist the new sale with
`amount_paid = 0` and `amount_due = total_amount` — and `record_payment` adds
the payment amount to `amount_paid`, subtracts it from `amount_due`, and
thereby preserves the invariant across the whole `sales` table. -/
theorem C2_paid_plus_due_eq_total :
    (∀ db c sd s db', create_sale db c sd = (.ok s, db') →
      s.amount_paid = 0 ∧ s.amount_due = s.total_amount ∧ s ∈ db'.sales) ∧
    (∀ db c cnd s db', create_credit_note db c cnd = (.ok s, db') →
      s.amount_paid = 0 ∧ s.amount_due = s.total_amount ∧ s ∈ db'.sales) ∧
    (∀ db c p sale st np nd db',
      db.sales.find? (fun r => r.id == p.sale_id && r.company_id == c) = some sale →
      (∀ r ∈ db.sales, r.id = p.sale_id → r = sale) →
      record_payment db c p = (.ok (st, np, nd), db') →
      np = sale.amount_paid + p.amount ∧ nd = sale.amount_due - p.amount ∧
      ((∀ r ∈ db.sales, r.amount_paid + r.amount_due = r.total_amount) →
        ∀ r ∈ db'.sales, r.amount_paid + r.amount_due = r.total_amount)) := by
  refine ⟨?_, ?_, ?_⟩
  · intro db c sd s db' h
    unfold create_sale at h
    simp only [generate_sale_number, DB.freshId, sale_totals] at h
    split at h
    · simp at h
    split at h
    · simp at h
    split at h
    · simp at h
    split at h
    · simp at h
    simp only [Prod.mk.injEq, Except.ok.injEq] at h
    obtain ⟨hs, hdb⟩ := h
    subst hdb
    refine ⟨?_, ?_, ?_⟩
    · rw [← hs]
    · rw [← hs]
    · simp only [create_sale_fold_sales, ← hs]
      simp
  · intro db c cnd s db' h
    unfold create_credit_note at h
    simp only [generate_sale_number, DB.freshId] at h
    split at h
    · simp at h
    split at h
    · simp at h
    split at h
    · simp at h
    split at h
    · simp at h
    simp only [Prod.mk.injEq, Except.ok.injEq] at h
    obtain ⟨hs, hdb⟩ := h
    subst hdb
    refine ⟨?_, ?_, ?_⟩
    · rw [← hs]
    · rw [← hs]
    · simp only [credit_note_fold_sales, ← hs]
      simp
  · intro db c p sale st np nd db' hfind huniq h
    unfold record_payment at h
    split at h
    · simp at h
    split at h
    · simp at h
    simp only [hfind, DB.freshId] at h
    split at h
    · simp at h
    split at h
    · simp at h
    simp only [Prod.mk.injEq, Except.ok.injEq] at h
    obtain ⟨⟨hst, hnp, hnd⟩, hdb⟩ := h
    refine ⟨hnp.symm, hnd.symm, ?_⟩
    intro hinv r hr
    rw [← hdb] at hr
    simp only [List.mem_map] at hr
    obtain ⟨x, hx, hfx⟩ := hr
    by_cases hid : x.id = p.sale_id
    · have hxs : x = sale := huniq x hx hid
      have hsale_mem : sale ∈ db.sales := List.mem_of_find?_eq_some hfind
      have hsinv := hinv sale hsale_mem
      rw [← hfx]
      simp only [hid, beq_self_eq_true, if_true]
      simp only [hxs]
      ring_nf
      linarith
    · rw [← hfx]
      have hid' : (x.id == p.sale_id) = false := by
        simpa using hid
      simp only [hid', Bool.false_eq_true, if_false]
      exact hinv x hx

/-- C2 witness: a concrete creation (total 10, paid 0, due 10) and a concrete
payment of 400 against an open 1000 invoice. -/
theorem C2_paid_plus_due_eq_total_witness :
    (c2Sale.amount_paid = 0 ∧ c2Sale.amount_due = c2Sale.total_amount ∧
      c2Sale ∈ (create_sale exSaleDB 1 c2Req).2.sales) ∧
    ((400 : Rat) = c2SaleRow.amount_paid + c2Pay.amount ∧
      (600 : Rat) = c2SaleRow.amount_due - c2Pay.amount ∧
      ((∀ r ∈ c2PayDB.sales, r.amount_paid + r.amount_due = r.total_amount) →
        ∀ r ∈ (record_payment c2PayDB 1 c2Pay).2.sales,
          r.amount_paid + r.amount_due = r.total_amount)) :=
  ⟨C2_paid_plus_due_eq_total.1 exSaleDB 1 c2Req c2Sale _ (by
      simp [create_sale, exSaleDB, c2Req, c2Sale, sale_totals,
        check_stock_availability, generate_sale_number, DB.freshId, List.find?,
        create_sale_item_step, update_inventory_from_sale, List.foldl,
        String.reduceEq]),
   C2_paid_plus_due_eq_total.2.2 c2PayDB 1 c2Pay c2SaleRow "partial" 400 600 _
     rfl (by decide) (by
      simp [record_payment, c2PayDB, c2Pay, c2SaleRow, DB.freshId, List.find?,
        String.reduceEq]
      norm_num [derived_status])⟩

/-- C4: the credit check. Walk-in customers are never rejected for credit;
a non-walk-in customer is rejected with `CreditLimitExceeded` exactly when
`current_balance + total_amount > credit_limit` (given the earlier
validations pass); and after any successful `create_sale` the customer rows
for a non-walk-in customer hold a balance `≤ credit_limit`. -/
theorem C4_credit_limit :
    (∀ db c sd customer,
      db.customers.find? (fun r =>
        r.id == sd.customer_id && r.company_id == c) = some customer →
      customer.customer_type = "walk-in" →
      (create_sale db c sd).1 ≠ .error .creditLimitExceeded) ∧
    (∀ db c sd customer,
      db.customers.find? (fun r =>
        r.id == sd.customer_id && r.company_id == c) = some customer →
      customer.customer_type ≠ "walk-in" →
      (db.storage_locations.find? (fun r =>
        r.id == sd.storage_location_id && r.company_id == c)).isSome →
      (sd.items.any fun item => decide (0 < item.quantity) &&
        !check_stock_availability db item.product_variant_id
          sd.storage_location_id item.quantity) = false →
      customer.credit_limit < customer.current_balance +
        (sale_totals sd.items (customer.tier_discount.getD 0)).2.2 →
      create_sale db c sd = (.error .creditLimitExceeded, db)) ∧
    (∀ db c sd customer s db',
      db.customers.find? (fun r =>
        r.id == sd.customer_id && r.company_id == c) = some customer →
      customer.customer_type ≠ "walk-in" →
      create_sale db c sd = (.ok s, db') →
      ∀ r ∈ db'.customers, r.id = sd.customer_id →
        r.current_balance ≤ customer.credit_limit) := by
  refine ⟨?_, ?_, ?_⟩
  · intro db c sd customer hfind hwalk
    unfold create_sale
    simp only [hfind, generate_sale_number, DB.freshId, sale_totals, hwalk]
    split
    · simp
    split
    · simp
    simp
  · intro db c sd customer hfind hnw hloc hstock hover
    obtain ⟨loc, hloc⟩ := Option.isSome_iff_exists.mp hloc
    unfold create_sale
    simp only [hfind, hloc, hstock, generate_sale_number, DB.freshId, sale_totals] at hover ⊢
    rw [if_neg (by simp), if_pos ⟨hnw, hover⟩]
  · intro db c sd customer s db' hfind hnw h
    unfold create_sale at h
    simp only [hfind, generate_sale_number, DB.freshId, sale_totals] at h
    split at h
    · simp at h
    split at h
    · simp at h
    split at h
    · simp at h
    rename_i hcred
    have hle : customer.current_balance +
        (sale_totals sd.items (customer.tier_discount.getD 0)).2.2 ≤
        customer.credit_limit := by
      simp only [sale_totals]
      by_contra hgt
      exact hcred ⟨hnw, by simpa using not_le.mp hgt⟩
    simp only [Prod.mk.injEq, Except.ok.injEq] at h
    obtain ⟨hs, hdb⟩ := h
    subst hdb
    intro r hr hid
    simp only [create_sale_fold_customers, List.mem_map] at hr
    obtain ⟨x, hx, hfx⟩ := hr
    by_cases hxid : x.id = sd.customer_id
    · rw [← hfx]
      simp only [hxid, beq_self_eq_true, if_true]
      simpa [sale_totals] using hle
    · rw [← hfx] at hid
      have hxid' : (x.id == sd.customer_id) = false := by simpa using hxid
      rw [hxid'] at hid
      simp at hid
      exact absurd hid hxid

/-- C4 witness: a business customer (limit 100, balance 50) buys for 10; the
sale succeeds and every matching customer row ends at balance 60 ≤ 100. -/
theorem C4_credit_limit_witness :
    c4Cust.customer_type ≠ "walk-in" ∧
    ∀ r ∈ (create_sale c4DB 1 c2Req).2.customers, r.id = c2Req.customer_id →
      r.current_balance ≤ c4Cust.credit_limit :=
  ⟨by decide,
   C4_credit_limit.2.2 c4DB 1 c2Req c4Cust c2Sale _ rfl (by decide) (by
     simp [create_sale, c4DB, c4Cust, c2Req, c2Sale, sale_totals,
       check_stock_availability, generate_sale_number, DB.freshId, List.find?,
       create_sale_item_step, update_inventory_from_sale, List.foldl,
       String.reduceEq]
     norm_num)⟩

/-- C6: for both targets, a payment strictly above the current `amount_due`
fails with `ExceedsAmountDue` and leaves the state untouched (for sales,
given the reference-number validation that runs first passes). -/
theorem C6_overpayment_fails_without_state_change :
    (∀ db c p sale,
      ((p.payment_method == "mpesa" || p.payment_method == "bank" ||
        p.payment_method == "card") && p.reference_number.isNone) = false →
      ((p.payment_method == "cash") && p.reference_number.isSome) = false →
      db.sales.find? (fun r => r.id == p.sale_id && r.company_id == c) = some sale →
      sale.amount_due < p.amount →
      record_payment db c p = (.error .exceedsAmountDue, db)) ∧
    (∀ db c eid p expense,
      db.expenses.find? (fun r => r.id == eid && r.company_id == c) = some expense →
      expense.amount_due < p.amount →
      record_expense_payment db c eid p = (.error .exceedsAmountDue, db)) := by
  constructor
  · intro db c p sale h1 h2 hfind hover
    unfold record_payment
    simp only [h1, h2, hfind, Bool.false_eq_true, if_false]
    rw [if_pos hover]
  · intro db c eid p expense hfind hover
    unfold record_expense_payment
    simp only [hfind]
    rw [if_pos hover]

/-- C6 witness: paying 1500 against due 1000 (sale) and 60 against due 50
(expense) both fail with `ExceedsAmountDue`, states unchanged. -/
theorem C6_overpayment_witness :
    record_payment c2PayDB 1
        { sale_id := 10, amount := 1500, payment_method := "cash" }
      = (.error .exceedsAmountDue, c2PayDB) ∧
    record_expense_payment c6ExpDB 1 7 { amount := 60, payment_method := "cash" }
      = (.error .exceedsAmountDue, c6ExpDB) :=
  ⟨C6_overpayment_fails_without_state_change.1 c2PayDB 1 _ c2SaleRow
     (by decide) (by decide) rfl (by norm_num [c2SaleRow]),
   C6_overpayment_fails_without_state_change.2 c6ExpDB 1 7 _ c6Exp
     rfl (by norm_num [c6Exp])⟩

/-- C9 counterexample: the claim says a cash payment carrying a
reference_number fails for expense targets too — but
`record_expense_payment` has no such rule and the call succeeds. -/
theorem C9_counterexample_expense_cash_with_reference_succeeds :
    (record_expense_payment c6ExpDB 1 7
      { amount := 10, payment_method := "cash",
        reference_number := some "RCPT-1" }).1 = .ok ("partial", 10, 40) := by
  simp [record_expense_payment, c6ExpDB, c6Exp, DB.freshId, List.find?,
    String.reduceEq]
  norm_num [derived_status]

/-- C9 (amended): `record_payment` (sales) requires a reference number for
mpesa/bank/card and forbids one for cash; `record_expense_payment` only
requires a reference for mpesa/bank/card — provided the expense exists and
the amount is within `amount_due`, since that check runs first — and has no
cash rule. -/
theorem C9_reference_number_rules :
    (∀ db c p,
      (p.payment_method = "mpesa" ∨ p.payment_method = "bank" ∨
        p.payment_method = "card") →
      p.reference_number = none →
      record_payment db c p = (.error .validationError, db)) ∧
    (∀ db c p,
      p.payment_method = "cash" → p.reference_number.isSome →
      record_payment db c p = (.error .validationError, db)) ∧
    (∀ db c eid p expense,
      db.expenses.find? (fun r => r.id == eid && r.company_id == c) = some expense →
      p.amount ≤ expense.amount_due →
      (p.payment_method = "mpesa" ∨ p.payment_method = "bank" ∨
        p.payment_method = "card") →
      p.reference_number = none →
      record_expense_payment db c eid p = (.error .validationError, db)) := by
  refine ⟨?_, ?_, ?_⟩
  · intro db c p hm href
    unfold record_payment
    rcases hm with h | h | h <;> simp [h, href, String.reduceEq]
  · intro db c p hm href
    unfold record_payment
    simp [hm, href, String.reduceEq]
  · intro db c eid p expense hfind hle hm href
    unfold record_expense_payment
    simp only [hfind]
    rw [if_neg (not_lt.mpr hle)]
    rcases hm with h | h | h <;> simp [h, href, String.reduceEq]

/-- C9 witness: concrete rejections for a reference-less mpesa sale payment,
a cash sale payment with a reference, and a reference-less mpesa expense
payment. -/
theorem C9_reference_number_rules_witness :
    record_payment c2PayDB 1
        { sale_id := 10, amount := 100, payment_method := "mpesa",
          reference_number := none }
      = (.error .validationError, c2PayDB) ∧
    record_payment c2PayDB 1
        { sale_id := 10, amount := 100, payment_method := "cash",
          reference_number := some "X1" }
      = (.error .validationError, c2PayDB) ∧
    record_expense_payment c6ExpDB 1 7
        { amount := 10, payment_method := "mpesa", reference_number := none }
      = (.error .validationError, c6ExpDB) :=
  ⟨C9_reference_number_rules.1 c2PayDB 1 _ (Or.inl rfl) rfl,
   C9_reference_number_rules.2.1 c2PayDB 1 _ rfl rfl,
   C9_reference_number_rules.2.2 c6ExpDB 1 7 _ c6Exp rfl
     (by norm_num [c6Exp]) (Or.inl rfl) rfl⟩

/-- C7 counterexample: raising the amount of a fully paid expense through
`update_expense` recomputes `amount_due` (162-100 = 50 > 0) but leaves
`payment_status` at "paid", so the stored status is NOT the pure function of
the money fields after this operation. -/
theorem C7_counterexample_update_expense_keeps_stale_status :
    ¬ ∀ e ∈ (update_expense c7PaidDB 1 5 { amount := some 150 }).2.expenses,
        e.payment_status = derived_status e.amount_paid e.amount_due := by
  intro hall
  have hmem : ({ c7PaidExp with amount := 150, amount_due := 50 } : Expense) ∈
      (update_expense c7PaidDB 1 5 { amount := some 150 }).2.expenses := by
    simp [update_expense, c7PaidDB, c7PaidExp, List.find?, String.reduceEq]
    norm_num
  have h := hall _ hmem
  norm_num [c7PaidExp, derived_status, String.reduceEq] at h
  exact absurd h (by decide)

/-- C7 (amended): after every successful `record_payment` /
`record_expense_payment` the returned status and every stored target row
carry `payment_status = derived_status amount_paid amount_due` — the pure
state-machine function ("paid" iff due ≤ 0, else "partial" iff paid > 0,
else "unpaid"). At creation, however, the status is hard-coded "unpaid", and
`update_expense` does not recompute it (see the counterexample). -/
theorem C7_status_is_derived_after_payments :
    (∀ db c p st np nd db',
      record_payment db c p = (.ok (st, np, nd), db') →
      st = derived_status np nd ∧
      ∀ r ∈ db'.sales, r.id = p.sale_id →
        r.payment_status = derived_status r.amount_paid r.amount_due) ∧
    (∀ db c eid p st np nd db',
      record_expense_payment db c eid p = (.ok (st, np, nd), db') →
      st = derived_status np nd ∧
      ∀ r ∈ db'.expenses, r.id = eid →
        r.payment_status = derived_status r.amount_paid r.amount_due) := by
  constructor
  · intro db c p st np nd db' h
    unfold record_payment at h
    split at h
    · simp at h
    split at h
    · simp at h
    split at h
    · simp at h
    split at h
    · simp at h
    simp only [DB.freshId] at h
    split at h
    · simp at h
    simp only [Prod.mk.injEq, Except.ok.injEq] at h
    obtain ⟨⟨hst, hnp, hnd⟩, hdb⟩ := h
    subst hst hnp hnd
    refine ⟨rfl, ?_⟩
    intro r hr hid
    rw [← hdb] at hr
    simp only [List.mem_map] at hr
    obtain ⟨x, hx, hfx⟩ := hr
    by_cases hxid : x.id = p.sale_id
    · rw [← hfx]
      simp [hxid]
    · rw [← hfx] at hid
      have hxid' : (x.id == p.sale_id) = false := by simpa using hxid
      rw [hxid'] at hid
      simp at hid
      exact absurd hid hxid
  · intro db c eid p st np nd db' h
    unfold record_expense_payment at h
    split at h
    · simp at h
    split at h
    · simp at h
    split at h
    · simp at h
    simp only [DB.freshId, Prod.mk.injEq, Except.ok.injEq] at h
    obtain ⟨⟨hst, hnp, hnd⟩, hdb⟩ := h
    subst hst hnp hnd
    refine ⟨rfl, ?_⟩
    intro r hr hid
    rw [← hdb] at hr
    simp only [List.mem_map] at hr
    obtain ⟨x, hx, hfx⟩ := hr
    by_cases hxid : x.id = eid
    · rw [← hfx]
      simp [hxid]
    · rw [← hfx] at hid
      have hxid' : (x.id == eid) = false := by simpa using hxid
      rw [hxid'] at hid
      simp at hid
      exact absurd hid hxid

/-- C7 witness: the concrete 400-against-1000 sale payment yields status
"partial" = derived_status 400 600, and every stored row agrees. -/
theorem C7_status_is_derived_witness :
    ("partial" : String) = derived_status 400 600 ∧
    ∀ r ∈ (record_payment c2PayDB 1 c2Pay).2.sales, r.id = c2Pay.sale_id →
      r.payment_status = derived_status r.amount_paid r.amount_due :=
  C7_status_is_derived_after_payments.1 c2PayDB 1 c2Pay "partial" 400 600 _ (by
    simp [record_payment, c2PayDB, c2Pay, c2SaleRow, DB.freshId, List.find?,
      String.reduceEq]
    norm_num [derived_status])

/-- A successful `update_inventory_quantity` leaves the transaction log
unchanged. -/
theorem uiq_ok_transactions {db db' : DB} {c v l : Nat} {q : Int}
    (h : update_inventory_quantity db c v l q = .ok db') :
    db'.inventory_transactions = db.inventory_transactions := by
  unfold update_inventory_quantity DB.freshId at h
  split at h
  · dsimp only at h
    split at h
    · simp at h
    · simp only [Except.ok.injEq] at h
      rw [← h]
  · split at h
    · simp at h
    · simp only [Except.ok.injEq] at h
      rw [← h]

/-- Same for the optional-location wrapper used by `reverse_transaction`. -/
theorem uiq_opt_ok_transactions {db db' : DB} {c v : Nat} {loc : Option Nat} {q : Int}
    (h : uiq_opt db c v loc q = .ok db') :
    db'.inventory_transactions = db.inventory_transactions := by
  unfold uiq_opt at h
  cases loc with
  | some l => exact uiq_ok_transactions h
  | none => simp only [Except.ok.injEq] at h; rw [← h]

/-- Once a state's transaction log is the old log plus a row tagged
`reference_type = reversal, reference_id = t`, reversing `t` again fails with
`AlreadyReversed` and returns that state unchanged. -/
theorem reverse_again_fails (dbNew db : DB) (c t : Nat)
    (original txn : InventoryTransaction)
    (hfind : db.inventory_transactions.find? (fun r =>
      r.id == t && r.company_id == c) = some original)
    (hany : db.inventory_transactions.any (fun r =>
      r.reference_type == some "reversal" && r.reference_id == some t) = false)
    (hnew : dbNew.inventory_transactions = db.inventory_transactions ++ [txn])
    (href : txn.reference_type = some "reversal")
    (hrid : txn.reference_id = some t) :
    reverse_transaction dbNew c t = (.error .alreadyReversed, dbNew) := by
  unfold reverse_transaction
  rw [hnew, List.find?_append, hfind]
  simp [Option.or, List.any_append, hany, href, hrid]

/-- C8: if a reversal of `t` already exists, `Reverse(t)` fails with
`AlreadyReversed` and returns the state unchanged; consequently reversing the
same transaction twice always fails the second time, whatever the
transaction's type. -/
theorem C8_reverse_twice_fails :
    (∀ db c t original,
      db.inventory_transactions.find? (fun r =>
        r.id == t && r.company_id == c) = some original →
      db.inventory_transactions.any (fun r =>
        r.reference_type == some "reversal" && r.reference_id == some t) = true →
      reverse_transaction db c t = (.error .alreadyReversed, db)) ∧
    (∀ db c t rv db',
      reverse_transaction db c t = (.ok rv, db') →
      reverse_transaction db' c t = (.error .alreadyReversed, db')) := by
  have partA : ∀ (db : DB) (c t : Nat) (original : InventoryTransaction),
      db.inventory_transactions.find? (fun r =>
        r.id == t && r.company_id == c) = some original →
      db.inventory_transactions.any (fun r =>
        r.reference_type == some "reversal" && r.reference_id == some t) = true →
      reverse_transaction db c t = (.error .alreadyReversed, db) := by
    intro db c t original hfind hany
    unfold reverse_transaction
    simp [hfind, hany]
  refine ⟨partA, ?_⟩
  intro db c t rv db' h
  unfold reverse_transaction at h
  cases hfind : db.inventory_transactions.find? (fun r =>
      r.id == t && r.company_id == c) with
  | none => simp only [hfind] at h; simp at h
  | some original =>
    simp only [hfind] at h
    by_cases hany : (db.inventory_transactions.any fun r =>
        r.reference_type == some "reversal" && r.reference_id == some t) = true
    · simp only [hany, if_true] at h
      simp at h
    · rw [Bool.not_eq_true] at hany
      simp only [hany, Bool.false_eq_true, if_false] at h
      by_cases hin : (original.transaction_type == "in") = true
      · simp only [hin, if_true] at h
        simp only [String.reduceBEq, Bool.false_eq_true, if_false, if_true] at h
        cases hstep : uiq_opt db c original.product_variant_id
            original.to_location_id (-original.quantity) with
        | error e => simp only [hstep] at h; simp at h
        | ok db₂ =>
          simp only [hstep, DB.freshId] at h
          rw [Prod.mk.injEq] at h
          obtain ⟨hrv, hdb⟩ := h
          subst hdb
          exact partA _ c t original
            (by simp [List.find?_append, uiq_opt_ok_transactions hstep, hfind,
              Option.or])
            (by simp [List.any_append, uiq_opt_ok_transactions hstep, hany])
      · rw [Bool.not_eq_true] at hin
        simp only [hin, Bool.false_eq_true, if_false] at h
        by_cases hout : (original.transaction_type == "out") = true
        · simp only [hout, if_true] at h
          simp only [String.reduceBEq, Bool.false_eq_true, if_false, if_true] at h
          cases hstep : uiq_opt db c original.product_variant_id
              original.from_location_id original.quantity with
          | error e => simp only [hstep] at h; simp at h
          | ok db₂ =>
            simp only [hstep, DB.freshId] at h
            rw [Prod.mk.injEq] at h
            obtain ⟨hrv, hdb⟩ := h
            subst hdb
            exact partA _ c t original
              (by simp [List.find?_append, uiq_opt_ok_transactions hstep, hfind,
                Option.or])
              (by simp [List.any_append, uiq_opt_ok_transactions hstep, hany])
        · rw [Bool.not_eq_true] at hout
          simp only [hout, Bool.false_eq_true, if_false] at h
          simp only [hin, hout, Bool.false_eq_true, if_false] at h
          by_cases htr : (original.transaction_type == "transfer") = true
          · simp only [htr, if_true] at h
            cases hstep1 : uiq_opt db c original.product_variant_id
                original.to_location_id original.quantity with
            | error e => simp only [hstep1] at h; simp at h
            | ok db₁ =>
              simp only [hstep1] at h
              cases hstep2 : uiq_opt db₁ c original.product_variant_id
                  original.from_location_id (-original.quantity) with
              | error e => simp only [hstep2] at h; simp at h
              | ok db₂ =>
                simp only [hstep2, DB.freshId] at h
                rw [Prod.mk.injEq] at h
                obtain ⟨hrv, hdb⟩ := h
                subst hdb
                have htx : db₂.inventory_transactions = db.inventory_transactions :=
                  (uiq_opt_ok_transactions hstep2).trans
                    (uiq_opt_ok_transactions hstep1)
                exact partA _ c t original
                  (by simp [List.find?_append, htx, hfind, Option.or])
                  (by simp [List.any_append, htx, hany])
          · rw [Bool.not_eq_true] at htr
            simp only [htr, Bool.false_eq_true, if_false, DB.freshId] at h
            rw [Prod.mk.injEq] at h
            obtain ⟨hrv, hdb⟩ := h
            subst hdb
            exact partA _ c t original
              (by simp [List.find?_append, hfind, Option.or])
              (by simp [List.any_append, hany])

/-- C8 witness: reversing the concrete stock-in succeeds once and the second
attempt fails with `AlreadyReversed`, state unchanged. -/
theorem C8_reverse_twice_fails_witness :
    reverse_transaction (reverse_transaction c8DB 1 9).2 1 9
      = (.error .alreadyReversed, (reverse_transaction c8DB 1 9).2) :=
  C8_reverse_twice_fails.2 c8DB 1 9 c8Rev _ (by decide)

/-- Restocking through the sale inventory helper in credit-note mode raises
the on-hand quantity at (variant, location) by `|quantity|`, whether or not a
row existed. -/
theorem uifs_credit_qtyAt0 (db : DB) (c v l : Nat) (q : Int) (sid : Nat) :
    qtyAt0 (update_inventory_from_sale db c v l q sid true) v l
      = qtyAt0 db v l + (q.natAbs : Int) := by
  unfold update_inventory_from_sale DB.freshId
  cases hfind : db.inventory_items.find? (fun r =>
      r.product_variant_id == v && r.storage_location_id == l) with
  | some item =>
    dsimp only [qtyAt0, qtyAt]
    simp only [Bool.not_true, Bool.false_eq_true, reduceIte]
    rw [List.find?_map]
    have hkey : ((fun (r : InventoryItem) =>
        r.product_variant_id == v && r.storage_location_id == l) ∘
        (fun r => if r.id == item.id then
          { r with quantity := item.quantity + (q.natAbs : Int) } else r)) =
        (fun (r : InventoryItem) =>
          r.product_variant_id == v && r.storage_location_id == l) := by
      funext r
      by_cases h : r.id = item.id <;> simp [h]
    rw [hkey, hfind]
    simp
  | none =>
    dsimp only [qtyAt0, qtyAt]
    simp only [reduceIte]
    rw [List.find?_append, hfind]
    simp [List.find?, Option.or]

/-- The `create_credit_note` per-line step raises the on-hand quantity at the
line's (variant, location) by `|quantity|`. -/
theorem credit_note_item_step_qtyAt0 (c l cnid : Nat) (dp : Rat) (db : DB)
    (v : Nat) (q : Int) (p : Rat) :
    qtyAt0 (credit_note_item_step c l cnid dp db (v, q, p)) v l
      = qtyAt0 db v l + (q.natAbs : Int) := by
  unfold credit_note_item_step DB.freshId
  dsimp only
  rw [uifs_credit_qtyAt0]
  rfl

/-- `qtyAt0` ignores the customers table. -/
theorem qtyAt0_set_customers (db : DB) (cs : List Customer) (v l : Nat) :
    qtyAt0 { db with customers := cs } v l = qtyAt0 db v l := rfl

/-- C5: a credit note returning `r` units of one line of an original invoice
succeeds, raises the stock of that line's variant at the original sale's
location by exactly `r`, and moves the customer's balance down by the value
of the `r` units discounted at the customer's *current* tier percentage. -/
theorem C5_credit_note_restock_and_balance
    (db : DB) (c : Nat) (cnd : CreditNoteCreate) (orig : Sale)
    (customer : Customer) (siid : Nat) (r : Int) (oi : SaleItem)
    (hsale : db.sales.find? (fun s =>
      s.id == cnd.original_sale_id && s.company_id == c) = some orig)
    (htype : orig.sale_type = "invoice")
    (hcust : db.customers.find? (fun x => x.id == orig.customer_id) = some customer)
    (hitems : cnd.items = [{ sale_item_id := siid, return_quantity := r }])
    (hitem : (db.sale_items.filter (fun si =>
        si.sale_id == cnd.original_sale_id)).find?
      (fun s => s.id == siid) = some oi)
    (hr : 0 < r) (hq : r ≤ oi.quantity) :
    (create_credit_note db c cnd).1.toOption.isSome = true ∧
    qtyAt0 (create_credit_note db c cnd).2 oi.product_variant_id
        orig.storage_location_id
      = qtyAt0 db oi.product_variant_id orig.storage_location_id + r ∧
    ∀ row ∈ (create_credit_note db c cnd).2.customers,
      row.id = orig.customer_id →
      row.current_balance = customer.current_balance
        - ((r : Rat) * oi.unit_price) *
            (1 - customer.tier_discount.getD 0 / 100) := by
  unfold create_credit_note
  rw [hitems]
  simp only [hsale, htype, ne_eq, not_true_eq_false, if_false, hcust,
    validate_credit_items, hitem, not_lt.mpr hq, reduceIte,
    generate_sale_number, DB.freshId, List.foldl]
  refine ⟨rfl, ?_, ?_⟩
  · rw [qtyAt0_set_customers, credit_note_item_step_qtyAt0]
    simp only [Int.natAbs_neg]
    rw [Int.natAbs_of_nonneg hr.le]
    rfl
  · intro row hrow hid
    simp only [credit_note_item_step_others, List.mem_map] at hrow
    obtain ⟨x, hx, hfx⟩ := hrow
    by_cases hxid : x.id = orig.customer_id
    · rw [← hfx]
      simp only [hxid, beq_self_eq_true, if_true]
      ring_nf
    · rw [← hfx] at hid
      have hxid' : (x.id == orig.customer_id) = false := by simpa using hxid
      rw [hxid'] at hid
      simp at hid
      exact absurd hid hxid

/-- C5 witness: returning 3 of the 5 originally sold units restores stock by
3 and lowers the balance by the current-tier-discounted value of 3 units. -/
theorem C5_credit_note_witness :
    (create_credit_note c5DB 1 c5Req).1.toOption.isSome = true ∧
    qtyAt0 (create_credit_note c5DB 1 c5Req).2 c5Item.product_variant_id
        c5Orig.storage_location_id
      = qtyAt0 c5DB c5Item.product_variant_id c5Orig.storage_location_id + 3 ∧
    ∀ row ∈ (create_credit_note c5DB 1 c5Req).2.customers,
      row.id = c5Orig.customer_id →
      row.current_balance = c5Cust.current_balance
        - (((3 : Int) : Rat) * c5Item.unit_price) *
            (1 - c5Cust.tier_discount.getD 0 / 100) :=
  C5_credit_note_restock_and_balance c5DB 1 c5Req c5Orig c5Cust 31 3 c5Item
    rfl rfl rfl rfl rfl (by decide) (by decide)

/-- Shifting the boundary and the cursor of the weekly loop by the same
offset shifts every generated date by that offset. -/
theorem weeklyDates_shift (s b : Int) : ∀ (n : Nat) (c : Int),
    weeklyDates (s + b) n (s + c) = (weeklyDates b n c).map (s + ·)
  | 0, _ => rfl
  | n + 1, c => by
    unfold weeklyDates
    by_cases h : c ≤ b
    · rw [if_pos (by omega : s + c ≤ s + b), if_pos h]
      rw [show s + c + 7 = s + (c + 7) by ring, weeklyDates_shift s b n (c + 7)]
      rfl
    · rw [if_neg (by omega : ¬ s + c ≤ s + b), if_neg h]
      rfl

/-- The dates of the generated children are the generated dates. -/
theorem childrenOf_map_dates (parent : Expense) (pid : Nat) :
    ∀ (dates : List Int) (nid : Nat),
      (childrenOf parent pid nid dates).map (·.expense_date) = dates
  | [], _ => rfl
  | d :: rest, nid => by
    simp [childrenOf, childrenOf_map_dates parent pid rest (nid + 1)]

/-- Every generated child points back at the parent. -/
theorem childrenOf_parent_id (parent : Expense) (pid : Nat) :
    ∀ (dates : List Int) (nid : Nat),
      ∀ ch ∈ childrenOf parent pid nid dates, ch.parent_expense_id = some pid
  | [], _ => by intro ch h; simp [childrenOf] at h
  | d :: rest, nid => by
    intro ch h
    rcases List.mem_cons.mp h with h | h
    · rw [h]
    · exact childrenOf_parent_id parent pid rest (nid + 1) ch h

/-- The recurrence loop appends exactly the `childrenOf` rows. -/
theorem expense_children_fold (parent : Expense) (pid : Nat) :
    ∀ (dates : List Int) (db : DB),
      (dates.foldl (create_expense_child_step parent pid) db).expenses
        = db.expenses ++ childrenOf parent pid db.next_id dates
  | [], db => by simp [childrenOf]
  | d :: rest, db => by
    simp only [List.foldl_cons, childrenOf]
    rw [expense_children_fold parent pid rest]
    simp [create_expense_child_step, DB.freshId, List.append_assoc]

/-- Weekly recurrence from a Monday with `day_of_week = 3` (Thursday) and no
end date: the generated dates are the 12 Thursdays `start+3, start+10, ...,
start+80`. -/
theorem generate_weekly_from_monday (start : PyDate) (dom : Nat)
    (hmon : pyWeekday start.ord = 0) :
    generate_recurring_dates start "weekly" 3 dom none
      = [3, 10, 17, 24, 31, 38, 45, 52, 59, 66, 73, 80].map (start.ord + ·) := by
  unfold generate_recurring_dates
  simp only [String.reduceBEq, reduceIte, hmon]
  norm_num
  rw [weeklyDates_shift start.ord 365 12 3]
  rw [show weeklyDates 365 12 3 = [3, 10, 17, 24, 31, 38, 45, 52, 59, 66, 73, 80]
    from rfl]
  simp

/-- C10: a weekly recurring expense starting on a Monday with
`recurrence_day_of_week = 3` (Thursday) and no end date inserts exactly 12
children, each carrying `parent_expense_id`, all on Thursdays, strictly
increasing 7 days apart, the last 80 ≤ 365 days after the start. -/
theorem C10_weekly_recurring_children
    (db : DB) (c : Nat) (e : ExpenseCreate) (cat : ExpenseCategory)
    (hcat : db.expense_categories.find? (fun r =>
      r.id == e.expense_category_id && r.company_id == c && r.is_active) = some cat)
    (htype : cat.expense_type = e.expense_type)
    (hsales : (e.expense_type == "sales" && e.sale_id.isNone) = false)
    (hsup : (e.supplier_id.isSome && (db.suppliers.find? (fun r =>
      some r.id == e.supplier_id && r.company_id == c)).isNone) = false)
    (hsale2 : (e.sale_id.isSome && (db.sales.find? (fun r =>
      some r.id == e.sale_id && r.company_id == c)).isNone) = false)
    (hrec : e.is_recurring = true)
    (hfreq : e.recurrence_frequency = some "weekly")
    (hdow : e.recurrence_day_of_week = some 3)
    (hend : e.recurrence_end_date = none)
    (hmon : pyWeekday e.expense_date.ord = 0) :
    ∃ parent children,
      (create_expense db c e).1 = .ok parent ∧
      (create_expense db c e).2.expenses = db.expenses ++ parent :: children ∧
      children.map (·.expense_date) =
        [3, 10, 17, 24, 31, 38, 45, 52, 59, 66, 73, 80].map (e.expense_date.ord + ·) ∧
      children.length = 12 ∧
      (∀ ch ∈ children, ch.parent_expense_id = some parent.id ∧
        pyWeekday ch.expense_date = 3) ∧
      List.Chain' (fun a b => a.expense_date + 7 = b.expense_date) children ∧
      ∀ ch ∈ children, ch.expense_date ≤ e.expense_date.ord + 365 := by
  unfold create_expense
  simp only [hcat, htype, ne_eq, not_true_eq_false, Bool.false_eq_true, if_false,
    hsales, hsup, hsale2, hrec, hfreq, hdow, hend, Option.getD_some,
    Option.isNone_some, Bool.true_and, Bool.and_false, Bool.false_and,
    String.reduceBEq, DB.freshId, if_true]
  simp only [show ((some "weekly" : Option String) == some "monthly") = false
    from by decide, Bool.false_and, Bool.false_eq_true, if_false]
  rw [generate_weekly_from_monday e.expense_date (e.recurrence_day_of_month.getD 0) hmon]
  rw [expense_children_fold]
  let P : Expense :=
    { id := db.next_id, company_id := c,
      expense_category_id := e.expense_category_id,
      expense_type := e.expense_type, amount := e.amount,
      supplier_id := e.supplier_id, sale_id := e.sale_id,
      payment_status := "unpaid", amount_paid := 0, amount_due := e.amount,
      is_recurring := true, recurrence_frequency := some "weekly",
      recurrence_day_of_week := some 3,
      recurrence_day_of_month := e.recurrence_day_of_month,
      expense_date := e.expense_date.ord, parent_expense_id := none }
  refine ⟨P, childrenOf P db.next_id (db.next_id + 1)
      ([3, 10, 17, 24, 31, 38, 45, 52, 59, 66, 73, 80].map (e.expense_date.ord + ·)),
    rfl, ?_, ?_, ?_, ?_, ?_, ?_⟩
  · exact (List.append_cons _ _ _).symm
  · exact childrenOf_map_dates _ _ _ _
  · simp [childrenOf, List.map]
  · intro ch hch
    refine ⟨(childrenOf_parent_id _ _ _ _ ch hch).trans rfl, ?_⟩
    have hd := List.mem_map_of_mem (·.expense_date) hch
    rw [childrenOf_map_dates _ _ _ _] at hd
    simp only [pyWeekday] at hmon ⊢
    simp at hd
    rcases hd with h | h | h | h | h | h | h | h | h | h | h | h <;> omega
  · have hc : List.Chain' (fun x y => x + 7 = y)
        ((childrenOf P db.next_id (db.next_id + 1)
          ([3, 10, 17, 24, 31, 38, 45, 52, 59, 66, 73, 80].map
            (e.expense_date.ord + ·))).map (·.expense_date)) := by
      rw [childrenOf_map_dates _ _ _ _]
      simp
      omega
    exact (List.chain'_map (fun x : Expense => x.expense_date)).mp hc
  · intro ch hch
    have hd := List.mem_map_of_mem (·.expense_date) hch
    rw [childrenOf_map_dates _ _ _ _] at hd
    simp at hd
    rcases hd with h | h | h | h | h | h | h | h | h | h | h | h <;> omega

/-- C10 witness: the concrete weekly expense starting Monday 2026-10-12
generates exactly 12 Thursday children. -/
theorem C10_weekly_recurring_children_witness :
    ∃ parent children,
      (create_expense c6ExpDB 1 c10Req).1 = .ok parent ∧
      (create_expense c6ExpDB 1 c10Req).2.expenses
        = c6ExpDB.expenses ++ parent :: children ∧
      children.map (·.expense_date) =
        [3, 10, 17, 24, 31, 38, 45, 52, 59, 66, 73, 80].map
          (c10Req.expense_date.ord + ·) ∧
      children.length = 12 ∧
      (∀ ch ∈ children, ch.parent_expense_id = some parent.id ∧
        pyWeekday ch.expense_date = 3) ∧
      List.Chain' (fun a b => a.expense_date + 7 = b.expense_date) children ∧
      ∀ ch ∈ children, ch.expense_date ≤ c10Req.expense_date.ord + 365 :=
  C10_weekly_recurring_children c6ExpDB 1 c10Req
    { id := 20, company_id := 1, expense_type := "standard", is_active := true }
    rfl rfl (by decide) (by decide) (by decide) rfl rfl rfl rfl (by decide)
